import Mathlib

/-!
Verification of the Screenshot-Processor antibot / consent engine.

Shallow embedding of the challenge classifier, the auto-solve orchestrator,
the human-motion simulator, the challenge solvers and the cookie-consent
chain, translated from src/handlers/antibot_handler.py,
src/handlers/cloudflare_handler.py, src/handlers/cookie_handler.py,
src/utils/human_behavior.py and src/utils/antibot.py.

Page state is modelled as records of DOM-query results (one field per
selector the code queries); randomness is modelled by injected streams of
samples constrained to the ranges the code draws from; float arithmetic is
modelled over the rationals.
-/

namespace SP

/-- Contiguous-sublist test on lists: pat occurs inside l. -/
def listContains [DecidableEq α] : List α → List α → Bool
  | pat, [] => pat.isEmpty
  | pat, a :: rest => pat.isPrefixOf (a :: rest) || listContains pat rest

/-- Substring test: pat occurs contiguously inside s (Python "in" on str,
Playwright has-text / CSS substring matching). -/
def strContains (s pat : String) : Bool :=
  listContains pat.toList s.toList

/-- ASCII lowercasing (the Python code lowercases titles and element texts
with str.lower before matching; all phrases matched are ASCII). -/
def strLower (s : String) : String :=
  String.mk (s.toList.map Char.toLower)

/-- Case-insensitive substring test (Playwright has-text matching is
case-insensitive). -/
def strContainsCI (s pat : String) : Bool :=
  strContains (strLower s) (strLower pat)

/-- Python int() on a nonnegative-or-negative float: truncation toward zero. -/
def pyTrunc (q : ℚ) : Int :=
  if 0 ≤ q then ⌊q⌋ else -⌊-q⌋

/-- Python "x or fallback" applied to an optional float argument: None and
0.0 are both falsy and are replaced by the fallback. -/
def pyOrFloat (x : Option ℚ) (fallback : ℚ) : ℚ :=
  match x with
  | none => fallback
  | some v => if v = 0 then fallback else v

/-- BoundingBox dict returned by Playwright bounding_box(): x, y, width,
height in page-pixel coordinates (utils/types.py). -/
structure BoundingBox where
  x : ℚ
  y : ℚ
  width : ℚ
  height : ℚ
deriving Repr, DecidableEq

/-- Result dictionary of AntibotHandler.detect_antibot, one Boolean per
challenge signal; all fields initialized False. -/
structure Detection where
  has_recaptcha : Bool := false
  has_hcaptcha : Bool := false
  has_cloudflare : Bool := false
  has_cloudflare_turnstile : Bool := false
  has_slider : Bool := false
  has_press_hold : Bool := false
  has_checkbox : Bool := false
  has_human_verify : Bool := false
  is_blocked : Bool := false
deriving Repr, DecidableEq

/-! ## Auto-solve orchestrator (AntibotHandler.auto_solve) -/

/-- Solver stages dispatched by auto_solve, in the order the code tests the
detection flags. -/
inductive Stage
  | cloudflareChallenge
  | cloudflareGeneric
  | recaptcha
  | humanVerify
  | slider
  | pressHold
  | checkbox
deriving Repr, DecidableEq

/-- Fixed priority order of auto_solve: the order in which the if-blocks of
the method test the detection flags. -/
def priorityOrder : List Stage :=
  [Stage.cloudflareChallenge, Stage.cloudflareGeneric, Stage.recaptcha,
   Stage.humanVerify, Stage.slider, Stage.pressHold, Stage.checkbox]

/-- Classifier flag gating each stage in auto_solve. -/
def stageFlag (d : Detection) : Stage → Bool
  | Stage.cloudflareChallenge => d.has_cloudflare_turnstile
  | Stage.cloudflareGeneric => d.has_cloudflare
  | Stage.recaptcha => d.has_recaptcha
  | Stage.humanVerify => d.has_human_verify
  | Stage.slider => d.has_slider
  | Stage.pressHold => d.has_press_hold
  | Stage.checkbox => d.has_checkbox

/-- Stages after the short-circuiting Cloudflare-challenge stage, paired with
the detection flag guarding each (the six trailing if-blocks of auto_solve,
in source order). -/
def restOrder : List (Stage × (Detection → Bool)) :=
  [(Stage.cloudflareGeneric, fun d => d.has_cloudflare),
   (Stage.recaptcha, fun d => d.has_recaptcha),
   (Stage.humanVerify, fun d => d.has_human_verify),
   (Stage.slider, fun d => d.has_slider),
   (Stage.pressHold, fun d => d.has_press_hold),
   (Stage.checkbox, fun d => d.has_checkbox)]

/-- One guarded stage of auto_solve: if the flag is set, run the solver and
OR its result into solved_any (solved_any = solver() or solved_any), and
record the attempt; otherwise skip. r gives each stage solver result. -/
def runStage (d : Detection) (r : Stage → Bool) (acc : Bool × List Stage)
    (e : Stage × (Detection → Bool)) : Bool × List Stage :=
  if e.2 d then (r e.1 || acc.1, acc.2 ++ [e.1]) else acc

/-- AntibotHandler.auto_solve, producing the overall Boolean together with
the trace of stages attempted, in order. The solver outcome of each stage is
supplied by the oracle r. If has_cloudflare_turnstile is set, the Cloudflare
challenge stage runs first and a success returns immediately. -/
def auto_solve (d : Detection) (r : Stage → Bool) : Bool × List Stage :=
  if d.has_cloudflare_turnstile then
    let solved1 := r Stage.cloudflareChallenge || false
    if solved1 then (solved1, [Stage.cloudflareChallenge])
    else restOrder.foldl (runStage d r) (solved1, [Stage.cloudflareChallenge])
  else restOrder.foldl (runStage d r) (false, [])

theorem foldl_runStage_spec (d : Detection) (r : Stage → Bool)
    (es : List (Stage × (Detection → Bool))) (acc : Bool × List Stage) :
    (es.foldl (runStage d r) acc).2
        = acc.2 ++ (es.filter (fun e => e.2 d)).map Prod.fst ∧
    (es.foldl (runStage d r) acc).1
        = (((es.filter (fun e => e.2 d)).map Prod.fst).any r || acc.1) := by
  induction es generalizing acc with
  | nil => simp
  | cons e es ih =>
    by_cases h : e.2 d = true
    · have hstep : runStage d r acc e = (r e.1 || acc.1, acc.2 ++ [e.1]) := by
        simp [runStage, h]
      constructor
      · rw [List.foldl_cons, hstep, (ih (r e.1 || acc.1, acc.2 ++ [e.1])).1]
        simp [List.filter_cons, h]
      · rw [List.foldl_cons, hstep, (ih (r e.1 || acc.1, acc.2 ++ [e.1])).2]
        simp only [List.filter_cons, h, if_true, List.map_cons, List.any_cons]
        cases r e.1 <;> cases acc.1 <;> simp
    · have hb : e.2 d = false := by simpa using h
      have hstep : runStage d r acc e = acc := by simp [runStage, hb]
      constructor
      · rw [List.foldl_cons, hstep, (ih acc).1]
        simp [List.filter_cons, hb]
      · rw [List.foldl_cons, hstep, (ih acc).2]
        simp [List.filter_cons, hb]

/-- C2: auto_solve attempts stages in the fixed priority order
cloudflareChallenge, cloudflareGeneric, recaptcha, humanVerify, slider,
pressHold, checkbox; a stage runs only if its classifier flag is set; when
the Cloudflare-challenge (managed-challenge-widget) stage succeeds the call
returns true immediately with no further stage; otherwise every eligible
stage runs and the result is the OR of the stage results. -/
theorem auto_solve_priority_spec (d : Detection) (r : Stage → Bool) :
    (d.has_cloudflare_turnstile = true → r Stage.cloudflareChallenge = true →
        auto_solve d r = (true, [Stage.cloudflareChallenge])) ∧
    ((d.has_cloudflare_turnstile = false ∨ r Stage.cloudflareChallenge = false) →
        (auto_solve d r).2 = priorityOrder.filter (stageFlag d) ∧
        (auto_solve d r).1 = (priorityOrder.filter (stageFlag d)).any r) := by
  have hrest : (restOrder.filter (fun e => e.2 d)).map Prod.fst
      = [Stage.cloudflareGeneric, Stage.recaptcha, Stage.humanVerify,
         Stage.slider, Stage.pressHold, Stage.checkbox].filter (stageFlag d) := by
    simp only [restOrder, List.filter, stageFlag]
    cases d.has_cloudflare <;> cases d.has_recaptcha <;>
      cases d.has_human_verify <;> cases d.has_slider <;>
      cases d.has_press_hold <;> cases d.has_checkbox <;> rfl
  constructor
  · intro hcf hr
    simp [auto_solve, hcf, hr]
  · intro h
    by_cases hcf : d.has_cloudflare_turnstile = true
    · have hr : r Stage.cloudflareChallenge = false := by
        rcases h with h | h
        · rw [hcf] at h; exact absurd h (by simp)
        · exact h
      have hspec := foldl_runStage_spec d r restOrder
        (false, [Stage.cloudflareChallenge])
      constructor
      · rw [show (auto_solve d r).2
            = (restOrder.foldl (runStage d r) (false, [Stage.cloudflareChallenge])).2 by
          simp [auto_solve, hcf, hr]]
        rw [hspec.1, hrest]
        simp [priorityOrder, List.filter, stageFlag, hcf]
      · rw [show (auto_solve d r).1
            = (restOrder.foldl (runStage d r) (false, [Stage.cloudflareChallenge])).1 by
          simp [auto_solve, hcf, hr]]
        rw [hspec.2]
        have : (priorityOrder.filter (stageFlag d))
            = Stage.cloudflareChallenge ::
              ([Stage.cloudflareGeneric, Stage.recaptcha, Stage.humanVerify,
                Stage.slider, Stage.pressHold, Stage.checkbox].filter (stageFlag d)) := by
          simp [priorityOrder, List.filter, stageFlag, hcf]
        rw [this, ← hrest]
        simp [List.any_cons, stageFlag, hcf, hr]
    · have hcf2 : d.has_cloudflare_turnstile = false := by simpa using hcf
      have hspec := foldl_runStage_spec d r restOrder (false, [])
      constructor
      · rw [show (auto_solve d r).2
            = (restOrder.foldl (runStage d r) (false, [])).2 by
          simp [auto_solve, hcf2]]
        rw [hspec.1, hrest]
        simp [priorityOrder, List.filter, stageFlag, hcf2]
      · rw [show (auto_solve d r).1
            = (restOrder.foldl (runStage d r) (false, [])).1 by
          simp [auto_solve, hcf2]]
        rw [hspec.2, hrest]
        simp [priorityOrder, List.filter, stageFlag, hcf2]

/-- Example detection with every flag set, used to witness the orchestrator
theorem on a concrete input. -/
def detectionAllFlags : Detection :=
  { has_recaptcha := true, has_hcaptcha := true, has_cloudflare := true,
    has_cloudflare_turnstile := true, has_slider := true,
    has_press_hold := true, has_checkbox := true, has_human_verify := true,
    is_blocked := true }

/-- Stage oracle where only the slider solver reports success. -/
def stageOracleSliderOnly : Stage → Bool :=
  fun s => s == Stage.slider

theorem auto_solve_priority_spec_witness :
    (auto_solve detectionAllFlags stageOracleSliderOnly).2
        = priorityOrder.filter (stageFlag detectionAllFlags) ∧
    (auto_solve detectionAllFlags stageOracleSliderOnly).1
        = (priorityOrder.filter (stageFlag detectionAllFlags)).any
            stageOracleSliderOnly :=
  (auto_solve_priority_spec detectionAllFlags stageOracleSliderOnly).2
    (Or.inr (by decide))

/-! ## Press-and-hold duration (AntibotHandler.solve_press_and_hold and
HumanBehavior.hold_at) -/

/-- Duration actually slept by solve_press_and_hold between mouse.down and
mouse.up, given the callers hold_duration argument and the sample that
random.uniform(2.0, 4.0) would return. The source computes
duration = hold_duration or random.uniform(2.0, 4.0). The surrounding
plumbing is kept: the button must match (count greater than 0) and have a
bounding box, otherwise no hold happens. -/
def solve_press_and_hold_heldDuration (buttonCount : Nat)
    (box : Option BoundingBox) (hold_duration : Option ℚ)
    (uniformSample : ℚ) : Option ℚ :=
  if buttonCount > 0 then
    match box with
    | some _ => some (pyOrFloat hold_duration uniformSample)
    | none => none
  else none

/-- Duration slept by HumanBehavior.hold_at:
hold_time = duration or random.uniform(2.0, 4.0). -/
def hold_at_heldDuration (duration : Option ℚ) (uniformSample : ℚ) : ℚ :=
  pyOrFloat duration uniformSample

/-- C10: an explicit hold duration of 0 is falsy under Python or, so both
solve_press_and_hold and hold_at silently replace it by the random sample
drawn from the range 2.0 to 4.0; the hold never lasts 0 seconds. -/
theorem press_and_hold_zero_duration_replaced (buttonCount : Nat)
    (box : BoundingBox) (u : ℚ) (hc : 0 < buttonCount)
    (hu1 : 2 ≤ u) (hu2 : u ≤ 4) :
    solve_press_and_hold_heldDuration buttonCount (some box) (some 0) u
        = some u ∧
    hold_at_heldDuration (some 0) u = u ∧
    u ≠ 0 := by
  refine ⟨?_, ?_, ?_⟩
  · simp [solve_press_and_hold_heldDuration, pyOrFloat, hc]
  · simp [hold_at_heldDuration, pyOrFloat]
  · intro h; rw [h] at hu1; norm_num at hu1

theorem press_and_hold_zero_duration_replaced_witness :
    solve_press_and_hold_heldDuration 1 (some ⟨0, 0, 10, 10⟩) (some 0) 3
        = some 3 ∧
    hold_at_heldDuration (some 0) 3 = 3 ∧
    (3 : ℚ) ≠ 0 :=
  press_and_hold_zero_duration_replaced 1 ⟨0, 0, 10, 10⟩ 3 (by decide)
    (by norm_num) (by norm_num)

/-! ## Challenge classifier (AntibotHandler.detect_antibot,
AntibotHandler.is_cloudflare_challenge_page) -/

/-- Results of the DOM queries detect_antibot and
is_cloudflare_challenge_page issue against the page, one field per selector,
plus the page title. A field is true iff locator(selector).count() is
positive. -/
structure PageSignals where
  /-- page.title() -/
  title : String
  /-- iframe[src*=recaptcha] -/
  recaptchaIframe : Bool
  /-- iframe[src*=hcaptcha] -/
  hcaptchaIframe : Bool
  /-- iframe[src*=challenges.cloudflare] -/
  cfCheckboxIframe : Bool
  /-- the id selector cf-turnstile -/
  cfTurnstileId : Bool
  /-- iframe[src*=challenges.cloudflare.com] -/
  cfChallengesComIframe : Bool
  /-- iframe[id^=cf-chl-widget] -/
  cfChlWidgetIframe : Bool
  /-- slider_track selector group (class contains slider / drag / ...) -/
  sliderTrack : Bool
  /-- press_hold_button selector group -/
  pressHoldButton : Bool
  /-- generic_robot_checkbox selector group -/
  robotCheckbox : Bool
  /-- class contains cf-turnstile or turnstile -/
  turnstileClassEl : Bool
  /-- the literal page text Verify you are human -/
  verifyHumanText : Bool
  /-- code element containing Ray ID -/
  rayIdMarker : Bool
  /-- script[src*=challenge-platform] -/
  challengePlatformScript : Bool
deriving Repr, DecidableEq

/-- Title phrases marking a Cloudflare challenge page. -/
def cfTitleIndicators : List String :=
  ["just a moment", "attention required", "one more step"]

/-- AntibotHandler.is_cloudflare_challenge_page: title matches a known
indicator, or one of the Ray-ID / challenge-platform-script / verify-text /
challenge-iframe markers is present. -/
def is_cloudflare_challenge_page (p : PageSignals) : Bool :=
  if cfTitleIndicators.any (fun ind => strContains (strLower p.title) ind) then
    true
  else
    p.rayIdMarker || p.challengePlatformScript || p.verifyHumanText ||
      p.cfChallengesComIframe

/-- Title phrases that set is_blocked. -/
def blockedTitleTerms : List String := ["access denied", "blocked", "forbidden"]

/-- Title phrases whose presence sets has_human_verify in the final elif. -/
def humanVerifyTitleTerms : List String :=
  ["just a moment", "verify", "security check", "challenge"]

/-- If-block of detect_antibot setting has_recaptcha. -/
def dSetRecaptcha (c : Bool) (r : Detection) : Detection :=
  if c then { r with has_recaptcha := true } else r

/-- If-block of detect_antibot setting has_hcaptcha. -/
def dSetHcaptcha (c : Bool) (r : Detection) : Detection :=
  if c then { r with has_hcaptcha := true } else r

/-- If-block of detect_antibot setting has_cloudflare alone. -/
def dSetCf (c : Bool) (r : Detection) : Detection :=
  if c then { r with has_cloudflare := true } else r

/-- If-block of detect_antibot setting has_cloudflare together with
has_cloudflare_turnstile. -/
def dSetCfTurnstile (c : Bool) (r : Detection) : Detection :=
  if c then { r with has_cloudflare := true, has_cloudflare_turnstile := true }
  else r

/-- If-block of detect_antibot setting has_slider. -/
def dSetSlider (c : Bool) (r : Detection) : Detection :=
  if c then { r with has_slider := true } else r

/-- If-block of detect_antibot setting has_press_hold. -/
def dSetPressHold (c : Bool) (r : Detection) : Detection :=
  if c then { r with has_press_hold := true } else r

/-- If-block of detect_antibot setting has_checkbox. -/
def dSetCheckbox (c : Bool) (r : Detection) : Detection :=
  if c then { r with has_checkbox := true } else r

/-- If-block of detect_antibot setting is_blocked. -/
def dSetBlocked (c : Bool) (r : Detection) : Detection :=
  if c then { r with is_blocked := true } else r

/-- Final if/elif/elif chain of detect_antibot setting has_human_verify from
the turnstile-class query, the verify-human text query and the challenge
title phrases. -/
def dSetHumanVerify (turnstileClass verifyText humanTitle : Bool)
    (r : Detection) : Detection :=
  if turnstileClass then { r with has_human_verify := true }
  else if verifyText then { r with has_human_verify := true }
  else if humanTitle then { r with has_human_verify := true }
  else r

/-- Body of AntibotHandler.detect_antibot after the DOM queries and the two
title-phrase scans have produced their Booleans: the if-blocks of the method
applied in source order to the all-false initial dictionary. -/
def detect_antibot_core (recaptcha hcaptcha icp cfCheckbox cfTurnstileId
    cfComIframe cfWidgetIframe slider pressHold robot blockedTitle
    turnstileClass verifyText humanTitle : Bool) : Detection :=
  dSetHumanVerify turnstileClass verifyText humanTitle
    (dSetBlocked blockedTitle
      (dSetCheckbox robot
        (dSetPressHold pressHold
          (dSetSlider slider
            (dSetCfTurnstile cfWidgetIframe
              (dSetCfTurnstile cfComIframe
                (dSetCf cfTurnstileId
                  (dSetCf cfCheckbox
                    (dSetCfTurnstile icp
                      (dSetHcaptcha hcaptcha
                        (dSetRecaptcha recaptcha {})))))))))))

theorem dSetRecaptcha_eq (c : Bool) (r : Detection) :
    dSetRecaptcha c r = { r with has_recaptcha := c || r.has_recaptcha } := by
  cases c <;> cases r <;> simp [dSetRecaptcha]

theorem dSetHcaptcha_eq (c : Bool) (r : Detection) :
    dSetHcaptcha c r = { r with has_hcaptcha := c || r.has_hcaptcha } := by
  cases c <;> cases r <;> simp [dSetHcaptcha]

theorem dSetCf_eq (c : Bool) (r : Detection) :
    dSetCf c r = { r with has_cloudflare := c || r.has_cloudflare } := by
  cases c <;> cases r <;> simp [dSetCf]

theorem dSetCfTurnstile_eq (c : Bool) (r : Detection) :
    dSetCfTurnstile c r =
      { r with has_cloudflare := c || r.has_cloudflare,
               has_cloudflare_turnstile := c || r.has_cloudflare_turnstile } := by
  cases c <;> cases r <;> simp [dSetCfTurnstile]

theorem dSetSlider_eq (c : Bool) (r : Detection) :
    dSetSlider c r = { r with has_slider := c || r.has_slider } := by
  cases c <;> cases r <;> simp [dSetSlider]

theorem dSetPressHold_eq (c : Bool) (r : Detection) :
    dSetPressHold c r = { r with has_press_hold := c || r.has_press_hold } := by
  cases c <;> cases r <;> simp [dSetPressHold]

theorem dSetCheckbox_eq (c : Bool) (r : Detection) :
    dSetCheckbox c r = { r with has_checkbox := c || r.has_checkbox } := by
  cases c <;> cases r <;> simp [dSetCheckbox]

theorem dSetBlocked_eq (c : Bool) (r : Detection) :
    dSetBlocked c r = { r with is_blocked := c || r.is_blocked } := by
  cases c <;> cases r <;> simp [dSetBlocked]

theorem dSetHumanVerify_eq (tc vt ht : Bool) (r : Detection) :
    dSetHumanVerify tc vt ht r =
      { r with has_human_verify := tc || vt || ht || r.has_human_verify } := by
  cases tc <;> cases vt <;> cases ht <;> cases r <;> simp [dSetHumanVerify]

/-- AntibotHandler.detect_antibot (fault-free path): each query of the method
feeds the corresponding if-block of the body. -/
def detect_antibot (p : PageSignals) : Detection :=
  detect_antibot_core p.recaptchaIframe p.hcaptchaIframe
    (is_cloudflare_challenge_page p) p.cfCheckboxIframe p.cfTurnstileId
    p.cfChallengesComIframe p.cfChlWidgetIframe p.sliderTrack
    p.pressHoldButton p.robotCheckbox
    (blockedTitleTerms.any (fun term => strContains (strLower p.title) term))
    p.turnstileClassEl p.verifyHumanText
    (humanVerifyTitleTerms.any (fun term => strContains (strLower p.title) term))

theorem detect_antibot_core_fields (recaptcha hcaptcha icp cfCheckbox
    cfTurnstileId cfComIframe cfWidgetIframe slider pressHold robot
    blockedTitle turnstileClass verifyText humanTitle : Bool) :
    detect_antibot_core recaptcha hcaptcha icp cfCheckbox cfTurnstileId
        cfComIframe cfWidgetIframe slider pressHold robot blockedTitle
        turnstileClass verifyText humanTitle =
      { has_recaptcha := recaptcha,
        has_hcaptcha := hcaptcha,
        has_cloudflare := icp || cfCheckbox || cfTurnstileId || cfComIframe
          || cfWidgetIframe,
        has_cloudflare_turnstile := icp || cfComIframe || cfWidgetIframe,
        has_slider := slider,
        has_press_hold := pressHold,
        has_checkbox := robot,
        has_human_verify := turnstileClass || verifyText || humanTitle,
        is_blocked := blockedTitle } := by
  simp only [detect_antibot_core, dSetRecaptcha_eq, dSetHcaptcha_eq,
    dSetCf_eq, dSetCfTurnstile_eq, dSetSlider_eq, dSetPressHold_eq,
    dSetCheckbox_eq, dSetBlocked_eq, dSetHumanVerify_eq]
  simp [Detection.mk.injEq, Bool.or_comm, Bool.or_assoc, Bool.or_left_comm]

/-- Independent signal of is_blocked: the title contains a blocked term. -/
def blockedTitleSignal (p : PageSignals) : Bool :=
  blockedTitleTerms.any (fun term => strContains (strLower p.title) term)

/-- Independent signal of has_human_verify: a turnstile-class element, the
verify-human text, or a challenge title phrase. -/
def humanVerifySignal (p : PageSignals) : Bool :=
  p.turnstileClassEl || p.verifyHumanText ||
    humanVerifyTitleTerms.any (fun term => strContains (strLower p.title) term)

/-- C3: on a page with a challenges.cloudflare.com iframe and a title
containing just a moment, detect_antibot sets has_cloudflare and
has_cloudflare_turnstile, and every other flag equals exactly its own
independent signal (so it is false unless that signal is also present). -/
theorem detect_antibot_challenge_page (p : PageSignals)
    (hiframe : p.cfChallengesComIframe = true)
    (htitle : strContains (strLower p.title) "just a moment" = true) :
    detect_antibot p =
      { has_recaptcha := p.recaptchaIframe,
        has_hcaptcha := p.hcaptchaIframe,
        has_cloudflare := true,
        has_cloudflare_turnstile := true,
        has_slider := p.sliderTrack,
        has_press_hold := p.pressHoldButton,
        has_checkbox := p.robotCheckbox,
        has_human_verify := humanVerifySignal p,
        is_blocked := blockedTitleSignal p } := by
  have hany : cfTitleIndicators.any
      (fun ind => strContains (strLower p.title) ind) = true := by
    simp only [cfTitleIndicators, List.any_cons, List.any_nil, htitle,
      Bool.true_or]
  have hicp : is_cloudflare_challenge_page p = true := by
    simp [is_cloudflare_challenge_page, hany]
  rw [detect_antibot, detect_antibot_core_fields, hicp, hiframe]
  simp [blockedTitleSignal, humanVerifySignal, Bool.or_assoc]

/-- Example challenge page: title Just a moment plus the challenge-host
iframe, no other signal. -/
def pageJustAMoment : PageSignals :=
  { title := "Just a moment...", recaptchaIframe := false,
    hcaptchaIframe := false, cfCheckboxIframe := true,
    cfTurnstileId := false, cfChallengesComIframe := true,
    cfChlWidgetIframe := false, sliderTrack := false,
    pressHoldButton := false, robotCheckbox := false,
    turnstileClassEl := false, verifyHumanText := false,
    rayIdMarker := false, challengePlatformScript := false }

theorem detect_antibot_challenge_page_witness :
    detect_antibot pageJustAMoment =
      { has_recaptcha := pageJustAMoment.recaptchaIframe,
        has_hcaptcha := pageJustAMoment.hcaptchaIframe,
        has_cloudflare := true,
        has_cloudflare_turnstile := true,
        has_slider := pageJustAMoment.sliderTrack,
        has_press_hold := pageJustAMoment.pressHoldButton,
        has_checkbox := pageJustAMoment.robotCheckbox,
        has_human_verify := humanVerifySignal pageJustAMoment,
        is_blocked := blockedTitleSignal pageJustAMoment } :=
  detect_antibot_challenge_page pageJustAMoment rfl (by decide)

/-! ## Fault behaviour of the classifier (C4): detect_antibot wraps every
check in one try/except, so one throwing query ends the whole scan. Each
query result is modelled as an Option, none meaning the query raised. -/

/-- Query results for the faulty-page model: none means the DOM query (or
title read) raised. -/
structure PageSignalsF where
  titleQ : Option String
  recaptchaIframeQ : Option Bool
  hcaptchaIframeQ : Option Bool
  cfCheckboxIframeQ : Option Bool
  cfTurnstileIdQ : Option Bool
  cfChallengesComIframeQ : Option Bool
  cfChlWidgetIframeQ : Option Bool
  sliderTrackQ : Option Bool
  pressHoldButtonQ : Option Bool
  robotCheckboxQ : Option Bool
  turnstileClassElQ : Option Bool
  verifyHumanTextQ : Option Bool
  rayIdMarkerQ : Option Bool
  challengePlatformScriptQ : Option Bool
deriving Repr, DecidableEq

/-- is_cloudflare_challenge_page with faulty queries: its own try/except
returns false whenever any of its reads raises. -/
def is_cloudflare_challenge_page_f (p : PageSignalsF) : Bool :=
  match p.titleQ with
  | none => false
  | some t =>
    if cfTitleIndicators.any (fun ind => strContains (strLower t) ind) then true
    else
      match p.rayIdMarkerQ, p.challengePlatformScriptQ, p.verifyHumanTextQ,
          p.cfChallengesComIframeQ with
      | some a, some b, some c, some d => a || b || c || d
      | _, _, _, _ => false

/-- detect_antibot with faulty queries. The whole body of the method sits in
a single try/except Exception: pass, so the first raising query jumps to the
except clause and the results accumulated so far are returned; every check
after the failing one is skipped. The call to is_cloudflare_challenge_page
never raises (it has its own try/except). -/
def detect_antibot_f (p : PageSignalsF) : Detection :=
  let r0 : Detection := {}
  match p.titleQ with
  | none => r0
  | some t =>
    match p.recaptchaIframeQ with
    | none => r0
    | some q1 =>
      let r1 := dSetRecaptcha q1 r0
      match p.hcaptchaIframeQ with
      | none => r1
      | some q2 =>
        let r2 := dSetHcaptcha q2 r1
        let r3 := dSetCfTurnstile (is_cloudflare_challenge_page_f p) r2
        match p.cfCheckboxIframeQ with
        | none => r3
        | some q4 =>
          let r4 := dSetCf q4 r3
          match p.cfTurnstileIdQ with
          | none => r4
          | some q5 =>
            let r5 := dSetCf q5 r4
            match p.cfChallengesComIframeQ with
            | none => r5
            | some q6 =>
              let r6 := dSetCfTurnstile q6 r5
              match p.cfChlWidgetIframeQ with
              | none => r6
              | some q7 =>
                let r7 := dSetCfTurnstile q7 r6
                match p.sliderTrackQ with
                | none => r7
                | some q8 =>
                  let r8 := dSetSlider q8 r7
                  match p.pressHoldButtonQ with
                  | none => r8
                  | some q9 =>
                    let r9 := dSetPressHold q9 r8
                    match p.robotCheckboxQ with
                    | none => r9
                    | some q10 =>
                      let r10 := dSetCheckbox q10 r9
                      let r11 := dSetBlocked
                        (blockedTitleTerms.any
                          (fun term => strContains (strLower t) term)) r10
                      match p.turnstileClassElQ with
                      | none => r11
                      | some q12 =>
                        if q12 then { r11 with has_human_verify := true }
                        else
                          match p.verifyHumanTextQ with
                          | none => r11
                          | some q13 =>
                            if q13 then { r11 with has_human_verify := true }
                            else if humanVerifyTitleTerms.any
                                (fun term => strContains (strLower t) term) then
                              { r11 with has_human_verify := true }
                            else r11

/-- Faulty page refuting C4: the recaptcha query raises, the slider query
would succeed and report a slider, everything else is quiet. -/
def pageFaultRecaptcha : PageSignalsF :=
  { titleQ := some "shop", recaptchaIframeQ := none,
    hcaptchaIframeQ := some false, cfCheckboxIframeQ := some false,
    cfTurnstileIdQ := some false, cfChallengesComIframeQ := some false,
    cfChlWidgetIframeQ := some false, sliderTrackQ := some true,
    pressHoldButtonQ := some false, robotCheckboxQ := some false,
    turnstileClassElQ := some false, verifyHumanTextQ := some false,
    rayIdMarkerQ := some false, challengePlatformScriptQ := some false }

/-- C4 counterexample: with only the recaptcha query failing and a slider
present, detect_antibot returns has_slider = false, so a failing query does
not merely degrade its own flag; it aborts the remaining checks. -/
theorem detect_antibot_fault_not_independent :
    pageFaultRecaptcha.recaptchaIframeQ = none ∧
    pageFaultRecaptcha.sliderTrackQ = some true ∧
    (detect_antibot_f pageFaultRecaptcha).has_slider = false ∧
    detect_antibot_f pageFaultRecaptcha = {} :=
  ⟨rfl, rfl, rfl, rfl⟩

/-- C4 amended: a DOM query of detect_antibot that raises never propagates,
but it ends the scan early: the flags computed before the failing check
keep their values, and the failing flag together with every later-checked
flag is returned false. One conjunct per failing query, in evaluation
order: the title read, then the eleven element queries the method issues
directly. The queries issued inside is_cloudflare_challenge_page are
caught by that helper's own try/except and only degrade that check to
false (final conjunct). -/
theorem detect_antibot_f_abort (p : PageSignalsF) :
    (p.titleQ = none → detect_antibot_f p = {}) ∧
    (∀ t, p.titleQ = some t → p.recaptchaIframeQ = none →
      detect_antibot_f p = {}) ∧
    (∀ t q1, p.titleQ = some t → p.recaptchaIframeQ = some q1 →
      p.hcaptchaIframeQ = none →
      detect_antibot_f p = { has_recaptcha := q1 }) ∧
    (∀ t q1 q2, p.titleQ = some t → p.recaptchaIframeQ = some q1 →
      p.hcaptchaIframeQ = some q2 → p.cfCheckboxIframeQ = none →
      detect_antibot_f p =
        { has_recaptcha := q1, has_hcaptcha := q2,
          has_cloudflare := is_cloudflare_challenge_page_f p,
          has_cloudflare_turnstile := is_cloudflare_challenge_page_f p }) ∧
    (∀ t q1 q2 q4, p.titleQ = some t → p.recaptchaIframeQ = some q1 →
      p.hcaptchaIframeQ = some q2 → p.cfCheckboxIframeQ = some q4 →
      p.cfTurnstileIdQ = none →
      detect_antibot_f p =
        { has_recaptcha := q1, has_hcaptcha := q2,
          has_cloudflare := is_cloudflare_challenge_page_f p || q4,
          has_cloudflare_turnstile := is_cloudflare_challenge_page_f p }) ∧
    (∀ t q1 q2 q4 q5, p.titleQ = some t → p.recaptchaIframeQ = some q1 →
      p.hcaptchaIframeQ = some q2 → p.cfCheckboxIframeQ = some q4 →
      p.cfTurnstileIdQ = some q5 → p.cfChallengesComIframeQ = none →
      detect_antibot_f p =
        { has_recaptcha := q1, has_hcaptcha := q2,
          has_cloudflare := is_cloudflare_challenge_page_f p || q4 || q5,
          has_cloudflare_turnstile := is_cloudflare_challenge_page_f p }) ∧
    (∀ t q1 q2 q4 q5 q6, p.titleQ = some t → p.recaptchaIframeQ = some q1 →
      p.hcaptchaIframeQ = some q2 → p.cfCheckboxIframeQ = some q4 →
      p.cfTurnstileIdQ = some q5 → p.cfChallengesComIframeQ = some q6 →
      p.cfChlWidgetIframeQ = none →
      detect_antibot_f p =
        { has_recaptcha := q1, has_hcaptcha := q2,
          has_cloudflare := is_cloudflare_challenge_page_f p || q4 || q5
            || q6,
          has_cloudflare_turnstile := is_cloudflare_challenge_page_f p
            || q6 }) ∧
    (∀ t q1 q2 q4 q5 q6 q7,
      p.titleQ = some t →
      p.recaptchaIframeQ = some q1 →
      p.hcaptchaIframeQ = some q2 →
      p.cfCheckboxIframeQ = some q4 →
      p.cfTurnstileIdQ = some q5 →
      p.cfChallengesComIframeQ = some q6 →
      p.cfChlWidgetIframeQ = some q7 →
      p.sliderTrackQ = none →
      detect_antibot_f p =
        { has_recaptcha := q1,
          has_hcaptcha := q2,
          has_cloudflare := is_cloudflare_challenge_page_f p || q4 || q5
            || q6 || q7,
          has_cloudflare_turnstile := is_cloudflare_challenge_page_f p
            || q6 || q7,
          has_slider := false, has_press_hold := false,
          has_checkbox := false, has_human_verify := false,
          is_blocked := false }) ∧
    (∀ t q1 q2 q4 q5 q6 q7 q8,
      p.titleQ = some t → p.recaptchaIframeQ = some q1 →
      p.hcaptchaIframeQ = some q2 → p.cfCheckboxIframeQ = some q4 →
      p.cfTurnstileIdQ = some q5 → p.cfChallengesComIframeQ = some q6 →
      p.cfChlWidgetIframeQ = some q7 → p.sliderTrackQ = some q8 →
      p.pressHoldButtonQ = none →
      detect_antibot_f p =
        { has_recaptcha := q1, has_hcaptcha := q2,
          has_cloudflare := is_cloudflare_challenge_page_f p || q4 || q5
            || q6 || q7,
          has_cloudflare_turnstile := is_cloudflare_challenge_page_f p
            || q6 || q7,
          has_slider := q8 }) ∧
    (∀ t q1 q2 q4 q5 q6 q7 q8 q9,
      p.titleQ = some t → p.recaptchaIframeQ = some q1 →
      p.hcaptchaIframeQ = some q2 → p.cfCheckboxIframeQ = some q4 →
      p.cfTurnstileIdQ = some q5 → p.cfChallengesComIframeQ = some q6 →
      p.cfChlWidgetIframeQ = some q7 → p.sliderTrackQ = some q8 →
      p.pressHoldButtonQ = some q9 → p.robotCheckboxQ = none →
      detect_antibot_f p =
        { has_recaptcha := q1, has_hcaptcha := q2,
          has_cloudflare := is_cloudflare_challenge_page_f p || q4 || q5
            || q6 || q7,
          has_cloudflare_turnstile := is_cloudflare_challenge_page_f p
            || q6 || q7,
          has_slider := q8, has_press_hold := q9 }) ∧
    (∀ t q1 q2 q4 q5 q6 q7 q8 q9 q10,
      p.titleQ = some t → p.recaptchaIframeQ = some q1 →
      p.hcaptchaIframeQ = some q2 → p.cfCheckboxIframeQ = some q4 →
      p.cfTurnstileIdQ = some q5 → p.cfChallengesComIframeQ = some q6 →
      p.cfChlWidgetIframeQ = some q7 → p.sliderTrackQ = some q8 →
      p.pressHoldButtonQ = some q9 → p.robotCheckboxQ = some q10 →
      p.turnstileClassElQ = none →
      detect_antibot_f p =
        { has_recaptcha := q1, has_hcaptcha := q2,
          has_cloudflare := is_cloudflare_challenge_page_f p || q4 || q5
            || q6 || q7,
          has_cloudflare_turnstile := is_cloudflare_challenge_page_f p
            || q6 || q7,
          has_slider := q8, has_press_hold := q9, has_checkbox := q10,
          has_human_verify := false,
          is_blocked := blockedTitleTerms.any
            (fun term => strContains (strLower t) term) }) ∧
    (∀ t q1 q2 q4 q5 q6 q7 q8 q9 q10,
      p.titleQ = some t → p.recaptchaIframeQ = some q1 →
      p.hcaptchaIframeQ = some q2 → p.cfCheckboxIframeQ = some q4 →
      p.cfTurnstileIdQ = some q5 → p.cfChallengesComIframeQ = some q6 →
      p.cfChlWidgetIframeQ = some q7 → p.sliderTrackQ = some q8 →
      p.pressHoldButtonQ = some q9 → p.robotCheckboxQ = some q10 →
      p.turnstileClassElQ = some false → p.verifyHumanTextQ = none →
      detect_antibot_f p =
        { has_recaptcha := q1, has_hcaptcha := q2,
          has_cloudflare := is_cloudflare_challenge_page_f p || q4 || q5
            || q6 || q7,
          has_cloudflare_turnstile := is_cloudflare_challenge_page_f p
            || q6 || q7,
          has_slider := q8, has_press_hold := q9, has_checkbox := q10,
          has_human_verify := false,
          is_blocked := blockedTitleTerms.any
            (fun term => strContains (strLower t) term) }) ∧
    (∀ t, p.titleQ = some t →
      cfTitleIndicators.any (fun ind => strContains (strLower t) ind)
        = false →
      (p.rayIdMarkerQ = none ∨ p.challengePlatformScriptQ = none ∨
        p.verifyHumanTextQ = none ∨ p.cfChallengesComIframeQ = none) →
      is_cloudflare_challenge_page_f p = false) := by
  refine ⟨?_, ?_, ?_, ?_, ?_, ?_, ?_, ?_, ?_, ?_, ?_, ?_, ?_⟩
  · intro h
    simp only [detect_antibot_f, h]
  · intro t ht h1
    simp only [detect_antibot_f, ht, h1]
  · intro t q1 ht h1 h2
    simp only [detect_antibot_f, ht, h1, h2, dSetRecaptcha_eq]
    simp [Detection.mk.injEq]
  · intro t q1 q2 ht h1 h2 h4
    simp only [detect_antibot_f, ht, h1, h2, h4, dSetRecaptcha_eq,
      dSetHcaptcha_eq, dSetCfTurnstile_eq]
    simp [Detection.mk.injEq]
  · intro t q1 q2 q4 ht h1 h2 h4 h5
    simp only [detect_antibot_f, ht, h1, h2, h4, h5, dSetRecaptcha_eq,
      dSetHcaptcha_eq, dSetCf_eq, dSetCfTurnstile_eq]
    simp [Detection.mk.injEq, Bool.or_comm, Bool.or_assoc, Bool.or_left_comm]
  · intro t q1 q2 q4 q5 ht h1 h2 h4 h5 h6
    simp only [detect_antibot_f, ht, h1, h2, h4, h5, h6, dSetRecaptcha_eq,
      dSetHcaptcha_eq, dSetCf_eq, dSetCfTurnstile_eq]
    simp [Detection.mk.injEq, Bool.or_comm, Bool.or_assoc, Bool.or_left_comm]
  · intro t q1 q2 q4 q5 q6 ht h1 h2 h4 h5 h6 h7
    simp only [detect_antibot_f, ht, h1, h2, h4, h5, h6, h7,
      dSetRecaptcha_eq, dSetHcaptcha_eq, dSetCf_eq, dSetCfTurnstile_eq]
    simp [Detection.mk.injEq, Bool.or_comm, Bool.or_assoc, Bool.or_left_comm]
  · intro t q1 q2 q4 q5 q6 q7 ht h1 h2 h4 h5 h6 h7 hs
    simp only [detect_antibot_f, ht, h1, h2, h4, h5, h6, h7, hs,
      dSetRecaptcha_eq, dSetHcaptcha_eq, dSetCf_eq, dSetCfTurnstile_eq]
    simp [Detection.mk.injEq, Bool.or_comm, Bool.or_assoc, Bool.or_left_comm]
  · intro t q1 q2 q4 q5 q6 q7 q8 ht h1 h2 h4 h5 h6 h7 h8 h9
    simp only [detect_antibot_f, ht, h1, h2, h4, h5, h6, h7, h8, h9,
      dSetRecaptcha_eq, dSetHcaptcha_eq, dSetCf_eq, dSetCfTurnstile_eq,
      dSetSlider_eq]
    simp [Detection.mk.injEq, Bool.or_comm, Bool.or_assoc, Bool.or_left_comm]
  · intro t q1 q2 q4 q5 q6 q7 q8 q9 ht h1 h2 h4 h5 h6 h7 h8 h9 h10
    simp only [detect_antibot_f, ht, h1, h2, h4, h5, h6, h7, h8, h9, h10,
      dSetRecaptcha_eq, dSetHcaptcha_eq, dSetCf_eq, dSetCfTurnstile_eq,
      dSetSlider_eq, dSetPressHold_eq]
    simp [Detection.mk.injEq, Bool.or_comm, Bool.or_assoc, Bool.or_left_comm]
  · intro t q1 q2 q4 q5 q6 q7 q8 q9 q10 ht h1 h2 h4 h5 h6 h7 h8 h9 h10 h12
    simp only [detect_antibot_f, ht, h1, h2, h4, h5, h6, h7, h8, h9, h10,
      h12, dSetRecaptcha_eq, dSetHcaptcha_eq, dSetCf_eq, dSetCfTurnstile_eq,
      dSetSlider_eq, dSetPressHold_eq, dSetCheckbox_eq, dSetBlocked_eq]
    simp [Detection.mk.injEq, Bool.or_comm, Bool.or_assoc, Bool.or_left_comm]
  · intro t q1 q2 q4 q5 q6 q7 q8 q9 q10 ht h1 h2 h4 h5 h6 h7 h8 h9 h10
      h12 h13
    simp only [detect_antibot_f, ht, h1, h2, h4, h5, h6, h7, h8, h9, h10,
      h12, h13, dSetRecaptcha_eq, dSetHcaptcha_eq, dSetCf_eq,
      dSetCfTurnstile_eq, dSetSlider_eq, dSetPressHold_eq, dSetCheckbox_eq,
      dSetBlocked_eq]
    simp [Detection.mk.injEq, Bool.or_comm, Bool.or_assoc, Bool.or_left_comm]
  · intro t ht hind hfault
    simp only [is_cloudflare_challenge_page_f, ht, hind,
      Bool.false_eq_true, if_false]
    rcases hfault with h | h | h | h
    · simp only [h]
    · cases hA : p.rayIdMarkerQ
      · rfl
      · simp only [h]
    · cases hA : p.rayIdMarkerQ
      · rfl
      · cases hB : p.challengePlatformScriptQ
        · rfl
        · simp only [h]
    · cases hA : p.rayIdMarkerQ
      · rfl
      · cases hB : p.challengePlatformScriptQ
        · rfl
        · cases hC : p.verifyHumanTextQ
          · rfl
          · simp only [h]

/-- Faulty page where only the slider query raises. -/
def pageFaultSlider : PageSignalsF :=
  { pageFaultRecaptcha with
    recaptchaIframeQ := some true,
    sliderTrackQ := none }

theorem detect_antibot_f_abort_witness :
    detect_antibot_f pageFaultSlider =
      { has_recaptcha := true,
        has_hcaptcha := false,
        has_cloudflare := is_cloudflare_challenge_page_f pageFaultSlider
          || false || false || false || false,
        has_cloudflare_turnstile :=
          is_cloudflare_challenge_page_f pageFaultSlider || false || false,
        has_slider := false, has_press_hold := false, has_checkbox := false,
        has_human_verify := false, is_blocked := false } :=
  (detect_antibot_f_abort pageFaultSlider).2.2.2.2.2.2.2.1 "shop" true
    false false false
    false false rfl rfl rfl rfl rfl rfl rfl rfl

/-! ## Puzzle-slider solver (AntibotHandler.solve_puzzle_slider,
AntibotHandler._try_puzzle_drag_positions) -/

/-- One invocation of _human_drag as seen by the puzzle loop: the drag starts
at the point (startX, startY) and releases at endX on the same row. -/
structure DragCall where
  startX : ℚ
  startY : ℚ
  endX : ℚ
deriving Repr, DecidableEq

/-- Offsets of the track width tried by the puzzle solver, in source order
(center-biased first). -/
def offsetAttempts : List ℚ := [65/100, 55/100, 75/100, 45/100, 85/100]

/-- Approximate track width in pixels assumed by the puzzle solver. -/
def trackWidthApprox : ℚ := 200

/-- Drag loop of _try_puzzle_drag_positions. markerGone k is true when the
query for the Slide-to-complete text counts zero matches after k drags have
been performed. The loop re-checks after every drag and returns True at the
first disappearance; if the offsets are exhausted it still returns True.
The produced list records the drags actually performed, in order. -/
def tryPuzzleDragLoop (startX startY : ℚ) (markerGone : Nat → Bool) :
    List ℚ → Nat → Bool × List DragCall
  | [], _ => (true, [])
  | off :: rest, k =>
    let call : DragCall := ⟨startX, startY, startX + trackWidthApprox * off⟩
    if markerGone (k + 1) then (true, [call])
    else
      let r := tryPuzzleDragLoop startX startY markerGone rest (k + 1)
      (r.1, call :: r.2)

/-- AntibotHandler._try_puzzle_drag_positions: drags from the handle center
to each candidate offset of the assumed track width. -/
def try_puzzle_drag_positions (handleBox : BoundingBox)
    (markerGone : Nat → Bool) : Bool × List DragCall :=
  let startX := handleBox.x + handleBox.width / 2
  let startY := handleBox.y + handleBox.height / 2
  tryPuzzleDragLoop startX startY markerGone offsetAttempts 0

/-- AntibotHandler.solve_puzzle_slider: returns False when the
Slide-to-complete marker is absent or no handle (selector chain or script
fallback) yields a bounding box; otherwise runs the drag loop. -/
def solve_puzzle_slider (markerPresent : Bool)
    (handleBox : Option BoundingBox) (markerGone : Nat → Bool) :
    Bool × List DragCall :=
  if !markerPresent then (false, [])
  else
    match handleBox with
    | some box => try_puzzle_drag_positions box markerGone
    | none => (false, [])

/-- Number of drags the loop performs: the first k between 1 and 5 at which
the marker has disappeared, or 5 when it never does. -/
def puzzleDragsPerformed (markerGone : Nat → Bool) : Nat :=
  if markerGone 1 then 1
  else if markerGone 2 then 2
  else if markerGone 3 then 3
  else if markerGone 4 then 4
  else 5

/-- C5: when the marker is seen and a handle is found, the solver returns
True unconditionally and performs exactly the drags for the offset prefix
0.65, 0.55, 0.75, 0.45, 0.85 up to (and including) the first drag after
which the marker disappears, every drag starting from the same handle
center. -/
theorem solve_puzzle_slider_spec (box : BoundingBox)
    (markerGone : Nat → Bool) :
    (solve_puzzle_slider true (some box) markerGone).1 = true ∧
    (solve_puzzle_slider true (some box) markerGone).2 =
      (offsetAttempts.take (puzzleDragsPerformed markerGone)).map
        (fun off =>
          ⟨box.x + box.width / 2, box.y + box.height / 2,
           box.x + box.width / 2 + trackWidthApprox * off⟩) := by
  by_cases g1 : markerGone 1 = true <;>
    by_cases g2 : markerGone 2 = true <;>
    by_cases g3 : markerGone 3 = true <;>
    by_cases g4 : markerGone 4 = true <;>
    by_cases g5 : markerGone 5 = true <;>
    simp [solve_puzzle_slider, try_puzzle_drag_positions, tryPuzzleDragLoop,
      puzzleDragsPerformed, offsetAttempts, g1, g2, g3, g4, g5]

/-! ## Managed-challenge full solve
(AntibotHandler.solve_cloudflare_challenge,
CloudflareHandler.solve_challenge) -/

/-- Page-state transition oracle for the challenge loop, over an abstract
page-state type. isChallengePage is is_cloudflare_challenge_page (never
raises); solveTurnstile is solve_cloudflare_turnstile (never raises, may
change the page state); waitState is the load-state wait, during which the
page may also change. -/
structure CFPage (σ : Type) where
  isChallengePage : σ → Bool
  solveTurnstile : σ → Bool × σ
  waitState : σ → σ

/-- Observable steps of solve_cloudflare_challenge: a solve attempt (with
the Boolean the turnstile solver returned) or a re-classification check
(with the Boolean is_cloudflare_challenge_page returned). -/
inductive CFEvent
  | attempt (clicked : Bool)
  | check (stillChallenge : Bool)
deriving Repr, DecidableEq

/-- Attempt loop of solve_cloudflare_challenge. Each iteration waits, calls
the turnstile solver and, only if the click was reported, waits again,
re-classifies and returns True when the challenge page is gone. A failed
click proceeds directly to the next attempt without re-classifying. -/
def solveCFLoop (w : CFPage σ) : Nat → σ → Bool × List CFEvent
  | 0, _ => (false, [])
  | Nat.succ n, s =>
    let p := w.solveTurnstile (w.waitState s)
    if p.1 then
      let s3 := w.waitState p.2
      if w.isChallengePage s3 then
        let r := solveCFLoop w n s3
        (r.1, CFEvent.attempt true :: CFEvent.check true :: r.2)
      else (true, [CFEvent.attempt true, CFEvent.check false])
    else
      let r := solveCFLoop w n p.2
      (r.1, CFEvent.attempt false :: r.2)

/-- AntibotHandler.solve_cloudflare_challenge (and the structurally
identical CloudflareHandler.solve_challenge): returns False at once when
the page is not a challenge page, otherwise runs up to maxAttempts
attempts. The event list records the attempts and checks performed. -/
def solve_cloudflare_challenge (w : CFPage σ) (maxAttempts : Nat) (s : σ) :
    Bool × List CFEvent :=
  if w.isChallengePage s then solveCFLoop w maxAttempts s else (false, [])

/-- Number of solve attempts recorded in a trace. -/
def countAttempts : List CFEvent → Nat
  | [] => 0
  | CFEvent.attempt _ :: rest => countAttempts rest + 1
  | CFEvent.check _ :: rest => countAttempts rest

/-- Holds when every successful attempt event is immediately followed by a
re-classification check. -/
def successCheckImmediate : List CFEvent → Bool
  | [] => true
  | CFEvent.attempt clicked :: rest =>
    if clicked then
      match rest with
      | CFEvent.check _ :: _ => successCheckImmediate rest
      | _ => false
    else successCheckImmediate rest
  | CFEvent.check _ :: rest => successCheckImmediate rest

theorem successCheckImmediate_attempt_true (b : Bool) (tr : List CFEvent) :
    successCheckImmediate
        (CFEvent.attempt true :: CFEvent.check b :: tr)
      = successCheckImmediate tr := by
  simp [successCheckImmediate]

theorem successCheckImmediate_attempt_false (tr : List CFEvent) :
    successCheckImmediate (CFEvent.attempt false :: tr)
      = successCheckImmediate tr := by
  simp [successCheckImmediate]

theorem solveCFLoop_spec (w : CFPage σ) (n : Nat) (s : σ) :
    countAttempts (solveCFLoop w n s).2 ≤ n ∧
    successCheckImmediate (solveCFLoop w n s).2 = true ∧
    ((CFEvent.check false ∈ (solveCFLoop w n s).2) ↔
      (solveCFLoop w n s).1 = true) ∧
    ((solveCFLoop w n s).1 = true →
      ∃ tr0, (solveCFLoop w n s).2 = tr0 ++ [CFEvent.check false] ∧
        CFEvent.check false ∉ tr0) := by
  induction n generalizing s with
  | zero => simp [solveCFLoop, countAttempts, successCheckImmediate]
  | succ n ih =>
    by_cases hp : (w.solveTurnstile (w.waitState s)).1 = true
    · by_cases hc :
          w.isChallengePage (w.waitState (w.solveTurnstile (w.waitState s)).2)
            = true
      · have hrec := ih (w.waitState (w.solveTurnstile (w.waitState s)).2)
        refine ⟨?_, ?_, ?_, ?_⟩
        · have h1 := hrec.1
          simp only [solveCFLoop, hp, hc, if_true, countAttempts]
          omega
        · simp only [solveCFLoop, hp, hc, if_true,
            successCheckImmediate_attempt_true]
          exact hrec.2.1
        · simp only [solveCFLoop, hp, hc, if_true]
          simpa using hrec.2.2.1
        · intro hr
          simp only [solveCFLoop, hp, hc, if_true] at hr ⊢
          rcases hrec.2.2.2 (by simpa using hr) with ⟨tr0, htr, hmem⟩
          refine ⟨CFEvent.attempt true :: CFEvent.check true :: tr0, ?_, ?_⟩
          · simp [htr]
          · simp [hmem]
      · refine ⟨?_, ?_, ?_, ?_⟩
        · simp [solveCFLoop, hp, hc, countAttempts]
        · simp only [solveCFLoop, hp, hc]
          simp [successCheckImmediate]
        · simp [solveCFLoop, hp, hc]
        · intro _
          simp only [solveCFLoop, hp, hc, Bool.false_eq_true, if_false]
          exact ⟨[CFEvent.attempt true], by simp, by simp⟩
    · have hp2 : (w.solveTurnstile (w.waitState s)).1 = false := by
        simpa using hp
      have hrec := ih (w.solveTurnstile (w.waitState s)).2
      refine ⟨?_, ?_, ?_, ?_⟩
      · have h1 := hrec.1
        simp only [solveCFLoop, hp2, Bool.false_eq_true, if_false,
          countAttempts]
        omega
      · simp only [solveCFLoop, hp2, Bool.false_eq_true, if_false,
          successCheckImmediate_attempt_false]
        exact hrec.2.1
      · simp only [solveCFLoop, hp2, Bool.false_eq_true, if_false]
        simpa using hrec.2.2.1
      · intro hr
        simp only [solveCFLoop, hp2, Bool.false_eq_true, if_false] at hr ⊢
        rcases hrec.2.2.2 (by simpa using hr) with ⟨tr0, htr, hmem⟩
        exact ⟨CFEvent.attempt false :: tr0, by simp [htr], by simp [hmem]⟩

/-- C6 amended: solve_cloudflare_challenge performs at most maxAttempts
attempts; every attempt whose turnstile click succeeded is immediately
followed by a re-classification; the run returns true exactly when some
re-classification reports the challenge cleared, and in that case the
clearing check is the final event (no further attempt follows it). Failed
clicks proceed to the next attempt without re-classifying. -/
theorem solve_cloudflare_challenge_spec (w : CFPage σ) (n : Nat) (s : σ) :
    countAttempts (solve_cloudflare_challenge w n s).2 ≤ n ∧
    successCheckImmediate (solve_cloudflare_challenge w n s).2 = true ∧
    ((CFEvent.check false ∈ (solve_cloudflare_challenge w n s).2) ↔
      (solve_cloudflare_challenge w n s).1 = true) ∧
    ((solve_cloudflare_challenge w n s).1 = true →
      ∃ tr0, (solve_cloudflare_challenge w n s).2
          = tr0 ++ [CFEvent.check false] ∧
        CFEvent.check false ∉ tr0) := by
  by_cases h : w.isChallengePage s = true
  · simpa [solve_cloudflare_challenge, h] using solveCFLoop_spec w n s
  · have h2 : w.isChallengePage s = false := by simpa using h
    simp [solve_cloudflare_challenge, h2, countAttempts,
      successCheckImmediate]

/-- World refuting C6 as stated: a challenge page whose turnstile click
always fails while the challenge itself clears right after the first
attempt (the page redirects on its own). State is a counter of solver
calls. -/
def cfWorldStuck : CFPage Nat :=
  { isChallengePage := fun s => decide (s = 0),
    solveTurnstile := fun s => (false, s + 1),
    waitState := fun s => s }

/-- C6 counterexample: on cfWorldStuck with the default three attempts, the
challenge signals are gone right after the first attempt, yet the routine
performs three attempts with no re-classification between them and returns
false. -/
theorem solve_cloudflare_challenge_counterexample :
    cfWorldStuck.isChallengePage 0 = true ∧
    cfWorldStuck.isChallengePage
        ((cfWorldStuck.solveTurnstile (cfWorldStuck.waitState 0)).2) = false ∧
    (solve_cloudflare_challenge cfWorldStuck 3 0).1 = false ∧
    (solve_cloudflare_challenge cfWorldStuck 3 0).2 =
      [CFEvent.attempt false, CFEvent.attempt false, CFEvent.attempt false] :=
  ⟨rfl, rfl, rfl, rfl⟩

/-- World for the witness: the click succeeds and the challenge clears. -/
def cfWorldSolvable : CFPage Nat :=
  { isChallengePage := fun s => decide (s = 0),
    solveTurnstile := fun s => (true, s + 1),
    waitState := fun s => s }

theorem solve_cloudflare_challenge_spec_witness :
    ∃ tr0, (solve_cloudflare_challenge cfWorldSolvable 3 0).2
        = tr0 ++ [CFEvent.check false] ∧
      CFEvent.check false ∉ tr0 :=
  (solve_cloudflare_challenge_spec cfWorldSolvable 3 0).2.2.2 rfl

/-! ## Motion simulator (AntibotHandler._smooth_mouse_move,
HumanBehavior.mouse_move) -/

/-- Squared euclidean distance between the current position and the target;
the source computes distance = ((tx - cx) ** 2 + (ty - cy) ** 2) ** 0.5. -/
def distSq (cx cy tx ty : ℚ) : ℚ := (tx - cx) ^ 2 + (ty - cy) ^ 2

/-- Step count of _smooth_mouse_move:
steps = max(10, int(distance / 20)). Over the rationals,
int(sqrt(s) / 20) equals Nat.sqrt of the floor of s, divided by 20 with
natural division; the lemma stepCount_eq_floor_sqrt below proves this
rendering equal to the real-arithmetic expression of the source. -/
def stepCount (cx cy tx ty : ℚ) : Nat :=
  max 10 (Nat.sqrt ⌊distSq cx cy tx ty⌋₊ / 20)

/-- Evaluation helper: Nat.sqrt does not reduce definitionally, so literal
values are certified through the squeeze m * m ≤ n < (m + 1) * (m + 1). -/
theorem natSqrt_eval (n m : Nat) (h1 : m * m ≤ n)
    (h2 : n < (m + 1) * (m + 1)) : Nat.sqrt n = m :=
  Nat.le_antisymm
    (Nat.le_of_lt_succ (Nat.sqrt_lt.mpr h2))
    (Nat.le_sqrt.mpr h1)

theorem natSqrt_natFloor_eq (q : ℚ) (hq : 0 ≤ q) :
    Nat.sqrt ⌊q⌋₊ = ⌊Real.sqrt ((q : ℝ))⌋₊ := by
  have hqr : (0 : ℝ) ≤ (q : ℝ) := by exact_mod_cast hq
  have hfl : ((⌊q⌋₊ : ℕ) : ℝ) ≤ (q : ℝ) := by
    exact_mod_cast Nat.floor_le hq
  apply le_antisymm
  · rw [← Real.nat_floor_real_sqrt_eq_nat_sqrt]
    exact Nat.floor_le_floor (Real.sqrt_le_sqrt hfl)
  · have hk : ((⌊Real.sqrt (q : ℝ)⌋₊ : ℕ) : ℝ) ≤ Real.sqrt (q : ℝ) :=
      Nat.floor_le (Real.sqrt_nonneg _)
    have hk2 : ((⌊Real.sqrt (q : ℝ)⌋₊ : ℕ) : ℝ) ^ 2 ≤ (q : ℝ) := by
      calc ((⌊Real.sqrt (q : ℝ)⌋₊ : ℕ) : ℝ) ^ 2
          ≤ Real.sqrt (q : ℝ) ^ 2 :=
            pow_le_pow_left₀ (by positivity) hk 2
        _ = (q : ℝ) := Real.sq_sqrt hqr
    have hk3 : ⌊Real.sqrt (q : ℝ)⌋₊ ^ 2 ≤ ⌊q⌋₊ := by
      apply Nat.le_floor
      exact_mod_cast hk2
    apply Nat.le_sqrt.mpr
    calc ⌊Real.sqrt (q : ℝ)⌋₊ * ⌊Real.sqrt (q : ℝ)⌋₊
        = ⌊Real.sqrt (q : ℝ)⌋₊ ^ 2 := by rw [Nat.pow_two]
      _ ≤ ⌊q⌋₊ := hk3

/-- The executable step count agrees with the real-arithmetic source
expression max(10, int(sqrt(distSq) / 20)). -/
theorem stepCount_eq_floor_sqrt (cx cy tx ty : ℚ) :
    stepCount cx cy tx ty
      = max 10 ⌊Real.sqrt ((distSq cx cy tx ty : ℚ) : ℝ) / 20⌋₊ := by
  have hq : 0 ≤ distSq cx cy tx ty := by
    simp only [distSq]; positivity
  have h20 : Real.sqrt ((distSq cx cy tx ty : ℚ) : ℝ) / 20
      = Real.sqrt ((distSq cx cy tx ty : ℚ) : ℝ) / ((20 : ℕ) : ℝ) := by
    norm_num
  rw [stepCount, natSqrt_natFloor_eq _ hq, h20, Nat.floor_div_nat]

/-- Ease-out curve of _smooth_mouse_move:
eased = 1 - (1 - progress) ** 2. -/
def easeOut (progress : ℚ) : ℚ := 1 - (1 - progress) ^ 2

/-- Waypoint i (0-based) of _smooth_mouse_move: progress (i+1)/steps pushed
through the ease-out curve, plus the uniform jitter sample of that step
(the code draws from random.uniform(-2, 2)). -/
def smoothMoveWaypoint (cx cy tx ty : ℚ) (steps : Nat) (jx jy : Nat → ℚ)
    (i : Nat) : ℚ × ℚ :=
  (cx + (tx - cx) * easeOut (((i : ℚ) + 1) / (steps : ℚ)) + jx i,
   cy + (ty - cy) * easeOut (((i : ℚ) + 1) / (steps : ℚ)) + jy i)

/-- Full waypoint sequence of _smooth_mouse_move. -/
def smoothMouseMovePath (cx cy tx ty : ℚ) (jx jy : Nat → ℚ) :
    List (ℚ × ℚ) :=
  (List.range (stepCount cx cy tx ty)).map
    (smoothMoveWaypoint cx cy tx ty (stepCount cx cy tx ty) jx jy)

/-- Waypoint i of HumanBehavior.mouse_move: linear interpolation truncated
to int, plus the integer jitter of that step (random.randint(-2, 2)); the
step count itself is a random.randint(10, 25) sample, passed in. -/
def mouseMoveWaypoint (cx cy tx ty : ℚ) (steps : Nat) (jx jy : Nat → Int)
    (i : Nat) : Int × Int :=
  (pyTrunc (cx + (tx - cx) * (((i : ℚ) + 1) / (steps : ℚ))) + jx i,
   pyTrunc (cy + (ty - cy) * (((i : ℚ) + 1) / (steps : ℚ))) + jy i)

/-- Full waypoint sequence of HumanBehavior.mouse_move for a given step
count sample. -/
def mouseMovePath (cx cy tx ty : ℚ) (steps : Nat) (jx jy : Nat → Int) :
    List (Int × Int) :=
  (List.range steps).map (mouseMoveWaypoint cx cy tx ty steps jx jy)

/-- C7 counterexample: HumanBehavior.mouse_move does not use the step count
max(10, distance / 20). With no viewport the current position is (0, 0);
for the target (1000, 0) the claimed formula gives 50 steps, but the
method draws its step count from randint(10, 25): with the legal sample
25 the path has 25 waypoints, not 50. -/
theorem mouse_move_step_count_counterexample :
    (mouseMovePath 0 0 1000 0 25 (fun _ => 0) (fun _ => 0)).length = 25 ∧
    10 ≤ 25 ∧ 25 ≤ 25 ∧
    stepCount 0 0 1000 0 = 50 ∧ 25 ≠ 50 := by
  refine ⟨by simp [mouseMovePath], by norm_num, by norm_num, ?_, by norm_num⟩
  have hfl : ⌊distSq 0 0 1000 0⌋₊ = 1000000 := by
    norm_num [distSq]
  rw [stepCount, hfl, natSqrt_eval 1000000 1000 (by norm_num) (by norm_num)]
  decide

/-- C7 amended (the step-count formula and trajectory guarantees hold for
AntibotHandler._smooth_mouse_move, not for HumanBehavior.mouse_move): the
step count is max(10, floor(distance / 20)), never below 10 and monotone in
the distance, and when every jitter sample lies in the uniform(-2, 2)
range, the final waypoint lies within 2px of the target on each axis. -/
theorem smooth_mouse_move_spec (cx cy tx ty : ℚ) (jx jy : Nat → ℚ)
    (hjx : ∀ i, |jx i| ≤ 2) (hjy : ∀ i, |jy i| ≤ 2) :
    10 ≤ stepCount cx cy tx ty ∧
    (∀ cx2 cy2 tx2 ty2 : ℚ, distSq cx cy tx ty ≤ distSq cx2 cy2 tx2 ty2 →
      stepCount cx cy tx ty ≤ stepCount cx2 cy2 tx2 ty2) ∧
    (smoothMouseMovePath cx cy tx ty jx jy).length = stepCount cx cy tx ty ∧
    (∃ wp, (smoothMouseMovePath cx cy tx ty jx jy).getLast? = some wp ∧
      |wp.1 - tx| ≤ 2 ∧ |wp.2 - ty| ≤ 2) := by
  refine ⟨le_max_left _ _, ?_, by simp [smoothMouseMovePath], ?_⟩
  · intro cx2 cy2 tx2 ty2 hle
    exact max_le_max le_rfl
      (Nat.div_le_div_right
        (Nat.sqrt_le_sqrt (Nat.floor_le_floor hle)))
  · obtain ⟨m, hm⟩ : ∃ m, stepCount cx cy tx ty = m + 1 :=
      Nat.exists_eq_succ_of_ne_zero
        (Nat.pos_iff_ne_zero.mp
          (lt_of_lt_of_le (by norm_num) (le_max_left 10 _)))
    have hpath : smoothMouseMovePath cx cy tx ty jx jy
        = (List.range m).map
            (smoothMoveWaypoint cx cy tx ty (m + 1) jx jy)
          ++ [smoothMoveWaypoint cx cy tx ty (m + 1) jx jy m] := by
      rw [smoothMouseMovePath, hm, List.range_succ, List.map_append,
        List.map_singleton]
    have heased : easeOut (((m : ℚ) + 1) / ((m + 1 : ℕ) : ℚ)) = 1 := by
      have hne : ((m + 1 : ℕ) : ℚ) ≠ 0 := by
        exact_mod_cast Nat.succ_ne_zero m
      rw [show (((m : ℚ) + 1) : ℚ) = ((m + 1 : ℕ) : ℚ) from by push_cast; ring]
      rw [div_self hne]
      simp [easeOut]
    refine ⟨smoothMoveWaypoint cx cy tx ty (m + 1) jx jy m, ?_, ?_, ?_⟩
    · rw [hpath, List.getLast?_concat]
    · rw [smoothMoveWaypoint]
      simp only [heased]
      have := hjx m
      rw [show cx + (tx - cx) * 1 + jx m - tx = jx m from by ring]
      exact this
    · rw [smoothMoveWaypoint]
      simp only [heased]
      have := hjy m
      rw [show cy + (ty - cy) * 1 + jy m - ty = jy m from by ring]
      exact this

theorem smooth_mouse_move_spec_witness :
    10 ≤ stepCount 0 0 30 40 ∧
    (∀ cx2 cy2 tx2 ty2 : ℚ, distSq 0 0 30 40 ≤ distSq cx2 cy2 tx2 ty2 →
      stepCount 0 0 30 40 ≤ stepCount cx2 cy2 tx2 ty2) ∧
    (smoothMouseMovePath 0 0 30 40 (fun _ => 0) (fun _ => 0)).length
      = stepCount 0 0 30 40 ∧
    (∃ wp, (smoothMouseMovePath 0 0 30 40 (fun _ => 0)
        (fun _ => 0)).getLast? = some wp ∧
      |wp.1 - 30| ≤ 2 ∧ |wp.2 - 40| ≤ 2) :=
  smooth_mouse_move_spec 0 0 30 40 (fun _ => 0) (fun _ => 0)
    (fun _ => by norm_num) (fun _ => by norm_num)

/-! ## Drag atomicity (AntibotHandler._human_drag, HumanBehavior.drag).
Each pointer primitive the page exposes may raise; a raised primitive
propagates out of the drag (there is no try/finally in either function).
The fault oracle says which primitive invocation (counted from the start of
the drag) raises; the run collects the events actually performed and
whether the drag aborted. -/

/-- Pointer primitives issued on the page mouse. -/
inductive MouseEv
  | move (x y : ℚ)
  | down
  | up
deriving Repr, DecidableEq

/-- State of a drag execution: events performed so far, index of the next
primitive invocation, and whether an invocation has raised (after which
nothing further executes). -/
structure MouseRun where
  trace : List MouseEv
  opIdx : Nat
  aborted : Bool
deriving Repr, DecidableEq

/-- Execute one pointer primitive: skipped entirely when already aborted;
raises (aborting the run) when the fault oracle marks this invocation;
otherwise appends the event. -/
def emit (fails : Nat → Bool) (e : MouseEv) (s : MouseRun) : MouseRun :=
  if s.aborted then s
  else if fails s.opIdx then
    { trace := s.trace, opIdx := s.opIdx + 1, aborted := true }
  else { trace := s.trace ++ [e], opIdx := s.opIdx + 1, aborted := false }

/-- Execute a list of pointer primitives in order. -/
def emitMany (fails : Nat → Bool) (es : List MouseEv) (s : MouseRun) :
    MouseRun :=
  es.foldl (fun a e => emit fails e a) s

/-- Jitter and wobble samples consumed by a drag. -/
structure DragRng where
  jx : Nat → ℚ
  jy : Nat → ℚ
  wobble : Nat → ℚ

/-- Pointer moves issued by _smooth_mouse_move. -/
def smoothMoveEvents (cx cy tx ty : ℚ) (jx jy : Nat → ℚ) : List MouseEv :=
  (smoothMouseMovePath cx cy tx ty jx jy).map
    (fun wp => MouseEv.move wp.1 wp.2)

/-- Pointer moves of the drag loop of _human_drag:
steps = max(20, int(distance / 10)) with distance = endX - startX, linear
progress in x and a vertical wobble from random.uniform(-3, 3) per step. -/
def dragLoopEvents (startX startY endX : ℚ) (wobble : Nat → ℚ) :
    List MouseEv :=
  let steps := max 20 (pyTrunc ((endX - startX) / 10)).toNat
  (List.range steps).map
    (fun (i : Nat) => MouseEv.move
      (startX + (endX - startX) * (((i : ℚ) + 1) / (steps : ℚ)))
      (startY + wobble i))

/-- AntibotHandler._human_drag under fault injection: smooth move to the
start point (from the viewport-center position (cx, cy)), pointer-down,
the drag-loop moves, pointer-up. No step is protected: a raising
primitive aborts the rest of the sequence, including the pointer-up. -/
def human_drag (cx cy startX startY endX : ℚ) (rng : DragRng)
    (fails : Nat → Bool) : MouseRun :=
  let s0 : MouseRun := ⟨[], 0, false⟩
  let s1 := emitMany fails (smoothMoveEvents cx cy startX startY rng.jx rng.jy) s0
  let s2 := emit fails MouseEv.down s1
  let s3 := emitMany fails (dragLoopEvents startX startY endX rng.wobble) s2
  emit fails MouseEv.up s3

/-- Pointer moves issued by HumanBehavior.mouse_move (integer waypoints,
randint step count). -/
def mouseMoveEvents (cx cy tx ty : ℚ) (steps : Nat) (jx jy : Nat → Int) :
    List MouseEv :=
  (mouseMovePath cx cy tx ty steps jx jy).map
    (fun wp => MouseEv.move (wp.1 : ℚ) (wp.2 : ℚ))

/-- HumanBehavior.drag under fault injection: mouse_move to the center of
the start box, pointer-down, mouse_move to (endX, endY) (endY defaulting to
the start row; the current position of each mouse_move is again the
viewport center), pointer-up. As in _human_drag, nothing catches a raising
primitive. -/
def hb_drag (cx cy : ℚ) (startBox : BoundingBox) (endX : ℚ)
    (endY : Option ℚ) (steps1 steps2 : Nat) (jx1 jy1 jx2 jy2 : Nat → Int)
    (fails : Nat → Bool) : MouseRun :=
  let startX := startBox.x + startBox.width / 2
  let startY := startBox.y + startBox.height / 2
  let ey := endY.getD startY
  let s0 : MouseRun := ⟨[], 0, false⟩
  let s1 := emitMany fails (mouseMoveEvents cx cy startX startY steps1 jx1 jy1) s0
  let s2 := emit fails MouseEv.down s1
  let s3 := emitMany fails (mouseMoveEvents cx cy endX ey steps2 jx2 jy2) s2
  emit fails MouseEv.up s3

theorem emit_aborted_eq (fails : Nat → Bool) (e : MouseEv) (s : MouseRun)
    (h : s.aborted = true) : emit fails e s = s := by
  simp [emit, h]

theorem emit_aborted_trace (fails : Nat → Bool) (e : MouseEv)
    (s : MouseRun) (h : (emit fails e s).aborted = true) :
    (emit fails e s).trace = s.trace := by
  by_cases h1 : s.aborted = true
  · rw [emit_aborted_eq fails e s h1]
  · by_cases h2 : fails s.opIdx = true
    · simp [emit, h1, h2]
    · simp [emit, h1, h2] at h

theorem emit_ok_trace (fails : Nat → Bool) (e : MouseEv) (s : MouseRun)
    (h : (emit fails e s).aborted = false) :
    (emit fails e s).trace = s.trace ++ [e] := by
  by_cases h1 : s.aborted = true
  · rw [emit_aborted_eq fails e s h1] at h ⊢
    rw [h1] at h
    cases h
  · by_cases h2 : fails s.opIdx = true
    · simp [emit, h1, h2] at h
    · simp [emit, h1, h2]

theorem not_mem_emit (fails : Nat → Bool) (e e1 : MouseEv) (s : MouseRun)
    (hs : e1 ∉ s.trace) (hne : e1 ≠ e) :
    e1 ∉ (emit fails e s).trace := by
  by_cases h1 : s.aborted = true
  · rw [emit_aborted_eq fails e s h1]; exact hs
  · by_cases h2 : fails s.opIdx = true
    · simpa [emit, h1, h2] using hs
    · simp only [emit, h1, h2]
      simp [List.mem_append, hs, hne]

theorem not_mem_emitMany (fails : Nat → Bool) (e1 : MouseEv)
    (es : List MouseEv) (s : MouseRun) (hs : e1 ∉ s.trace)
    (hes : ∀ e ∈ es, e1 ≠ e) : e1 ∉ (emitMany fails es s).trace := by
  induction es generalizing s with
  | nil => exact hs
  | cons e es ih =>
    rw [emitMany, List.foldl_cons]
    exact ih (emit fails e s)
      (not_mem_emit fails e e1 s hs (hes e (by simp)))
      (fun x hx => hes x (by simp [hx]))

theorem up_not_mem_smoothMoveEvents (cx cy tx ty : ℚ) (jx jy : Nat → ℚ) :
    ∀ e ∈ smoothMoveEvents cx cy tx ty jx jy, MouseEv.up ≠ e := by
  intro e he
  simp only [smoothMoveEvents, List.mem_map] at he
  obtain ⟨wp, _, rfl⟩ := he
  simp

theorem up_not_mem_dragLoopEvents (startX startY endX : ℚ)
    (wobble : Nat → ℚ) :
    ∀ e ∈ dragLoopEvents startX startY endX wobble, MouseEv.up ≠ e := by
  intro e he
  simp only [dragLoopEvents, List.mem_map] at he
  obtain ⟨i, _, rfl⟩ := he
  simp

theorem up_not_mem_mouseMoveEvents (cx cy tx ty : ℚ) (steps : Nat)
    (jx jy : Nat → Int) :
    ∀ e ∈ mouseMoveEvents cx cy tx ty steps jx jy, MouseEv.up ≠ e := by
  intro e he
  simp only [mouseMoveEvents, List.mem_map] at he
  obtain ⟨wp, _, rfl⟩ := he
  simp

/-- C1 amended: neither _human_drag nor HumanBehavior.drag protects the
pointer-up. On a run where no primitive raises, the event sequence ends
with pointer-up; on a run where any primitive raises after pointer-down
(or the pointer-up invocation itself raises), no pointer-up is ever
issued and the failure propagates with the button still down. -/
theorem drag_pointer_up_spec (cx cy startX startY endX : ℚ) (rng : DragRng)
    (fails : Nat → Bool) (startBox : BoundingBox) (endX2 : ℚ)
    (endY : Option ℚ) (steps1 steps2 : Nat) (jx1 jy1 jx2 jy2 : Nat → Int)
    (fails2 : Nat → Bool) :
    ((human_drag cx cy startX startY endX rng fails).aborted = false →
      (human_drag cx cy startX startY endX rng fails).trace.getLast?
        = some MouseEv.up) ∧
    ((human_drag cx cy startX startY endX rng fails).aborted = true →
      MouseEv.up ∉ (human_drag cx cy startX startY endX rng fails).trace) ∧
    ((hb_drag cx cy startBox endX2 endY steps1 steps2 jx1 jy1 jx2 jy2
        fails2).aborted = false →
      (hb_drag cx cy startBox endX2 endY steps1 steps2 jx1 jy1 jx2 jy2
        fails2).trace.getLast? = some MouseEv.up) ∧
    ((hb_drag cx cy startBox endX2 endY steps1 steps2 jx1 jy1 jx2 jy2
        fails2).aborted = true →
      MouseEv.up ∉ (hb_drag cx cy startBox endX2 endY steps1 steps2 jx1 jy1
        jx2 jy2 fails2).trace) := by
  have hup1 : MouseEv.up ∉
      (emitMany fails (dragLoopEvents startX startY endX rng.wobble)
        (emit fails MouseEv.down
          (emitMany fails
            (smoothMoveEvents cx cy startX startY rng.jx rng.jy)
            ⟨[], 0, false⟩))).trace := by
    apply not_mem_emitMany
    · apply not_mem_emit
      · apply not_mem_emitMany
        · simp
        · exact up_not_mem_smoothMoveEvents cx cy startX startY rng.jx rng.jy
      · simp
    · exact up_not_mem_dragLoopEvents startX startY endX rng.wobble
  have hup2 : MouseEv.up ∉
      (emitMany fails2
        (mouseMoveEvents cx cy endX2
          (endY.getD (startBox.y + startBox.height / 2)) steps2 jx2 jy2)
        (emit fails2 MouseEv.down
          (emitMany fails2
            (mouseMoveEvents cx cy (startBox.x + startBox.width / 2)
              (startBox.y + startBox.height / 2) steps1 jx1 jy1)
            ⟨[], 0, false⟩))).trace := by
    apply not_mem_emitMany
    · apply not_mem_emit
      · apply not_mem_emitMany
        · simp
        · exact up_not_mem_mouseMoveEvents cx cy _ _ steps1 jx1 jy1
      · simp
    · exact up_not_mem_mouseMoveEvents cx cy _ _ steps2 jx2 jy2
  refine ⟨?_, ?_, ?_, ?_⟩
  · intro h
    rw [human_drag] at h ⊢
    rw [emit_ok_trace _ _ _ h, List.getLast?_concat]
  · intro h
    rw [human_drag] at h ⊢
    rw [emit_aborted_trace _ _ _ h]
    exact hup1
  · intro h
    rw [hb_drag] at h ⊢
    rw [emit_ok_trace _ _ _ h, List.getLast?_concat]
  · intro h
    rw [hb_drag] at h ⊢
    rw [emit_aborted_trace _ _ _ h]
    exact hup2

/-- Zero jitter and wobble. -/
def rngZero : DragRng := ⟨fun _ => 0, fun _ => 0, fun _ => 0⟩

/-- Fault oracle raising at the eleventh primitive (0-based index 11): for
the counterexample drag this is the first drag-loop move, right after
pointer-down. -/
def failsAt11 : Nat → Bool := fun k => k == 11

theorem stepCount_100_100_200_100 : stepCount 100 100 200 100 = 10 := by
  have hfl : ⌊distSq 100 100 200 100⌋₊ = 10000 := by norm_num [distSq]
  rw [stepCount, hfl, natSqrt_eval 10000 100 (by norm_num) (by norm_num)]
  decide

/-- C1 counterexample: dragging from (200, 100) to x=300 (pointer starting
at viewport center (100, 100)) with the first post-down move raising: the
run aborts, pointer-down was issued, and no pointer-up ever is, so the
browser is left in a stuck-drag state while the failure propagates. -/
theorem human_drag_counterexample :
    (human_drag 100 100 200 100 300 rngZero failsAt11).aborted = true ∧
    MouseEv.down ∈ (human_drag 100 100 200 100 300 rngZero failsAt11).trace ∧
    MouseEv.up ∉ (human_drag 100 100 200 100 300 rngZero failsAt11).trace := by
  have hs : stepCount 100 100 200 100 = 10 := stepCount_100_100_200_100
  have hq : ((300 : ℚ) - 200) / 10 = ((10 : ℤ) : ℚ) := by norm_num
  have hsteps : max 20 (pyTrunc (((300 : ℚ) - 200) / 10)).toNat = 20 := by
    rw [hq, pyTrunc]
    norm_num [Int.floor_intCast]
  simp only [human_drag, smoothMoveEvents, smoothMouseMovePath, hs,
    dragLoopEvents, hsteps]
  decide

theorem drag_pointer_up_spec_witness :
    (human_drag 100 100 200 100 300 rngZero (fun _ => false)).aborted
        = false ∧
    (human_drag 100 100 200 100 300 rngZero
        (fun _ => false)).trace.getLast? = some MouseEv.up :=
  have habort : (human_drag 100 100 200 100 300 rngZero
      (fun _ => false)).aborted = false := by
    have hq : ((300 : ℚ) - 200) / 10 = ((10 : ℤ) : ℚ) := by norm_num
    have hsteps : max 20 (pyTrunc (((300 : ℚ) - 200) / 10)).toNat = 20 := by
      rw [hq, pyTrunc]
      norm_num [Int.floor_intCast]
    simp only [human_drag, smoothMoveEvents, smoothMouseMovePath,
      stepCount_100_100_200_100, dragLoopEvents, hsteps]
    decide
  ⟨habort,
    (drag_pointer_up_spec 100 100 200 100 300 rngZero (fun _ => false)
      ⟨0, 0, 1, 1⟩ 0 none 10 10 (fun _ => 0) (fun _ => 0) (fun _ => 0)
      (fun _ => 0) (fun _ => false)).1 habort⟩

/-! ## Cookie-consent chain (CookieHandler.accept_cookies) -/

/-- Whitespace trim on a character list (JS String.prototype.trim). -/
def listTrim (l : List Char) : List Char :=
  ((l.dropWhile (fun c => c.isWhitespace)).reverse.dropWhile
    (fun c => c.isWhitespace)).reverse

/-- Whitespace trim on strings. -/
def strTrim (s : String) : String := String.mk (listTrim s.toList)

/-- A candidate clickable element of the page, as seen by the consent
chain: its text, visibility, tag (button / anchor), whether it is in the
element set the DOM-script fallback iterates (button, role=button, input
button/submit), the class substrings of its ancestors the container-scoped
selectors test, and the attribute/id selectors of the chain it matches. -/
structure ConsentButton where
  text : String
  visible : Bool
  isButtonTag : Bool
  isAnchorTag : Bool
  jsButtonLike : Bool
  containerClasses : List String
  attrMarkers : List String
deriving Repr, DecidableEq

/-- Shape of an entry of COOKIE_ACCEPT_SELECTORS: a text selector on button
elements (optionally with the :visible pseudo-class), a text selector on
anchors, an attribute/id selector, or a container-class-scoped button text
selector. -/
inductive AcceptSelector
  | btnText (phrase : String)
  | btnTextVisible (phrase : String)
  | linkText (phrase : String)
  | attrSel (marker : String)
  | containerBtnText (containerClass : String) (phrase : String)
deriving Repr, DecidableEq

/-- Playwright matching of one selector against one element; has-text is a
case-insensitive substring test. -/
def matchesSelector (b : ConsentButton) : AcceptSelector → Bool
  | AcceptSelector.btnText p => b.isButtonTag && strContainsCI b.text p
  | AcceptSelector.btnTextVisible p =>
    b.isButtonTag && strContainsCI b.text p && b.visible
  | AcceptSelector.linkText p => b.isAnchorTag && strContainsCI b.text p
  | AcceptSelector.attrSel m => decide (m ∈ b.attrMarkers)
  | AcceptSelector.containerBtnText c p =>
    decide (c ∈ b.containerClasses) && b.isButtonTag && strContainsCI b.text p

/-- CookieHandler.COOKIE_ACCEPT_SELECTORS in source order; attribute/id
selectors are represented by their marker string. -/
def cookieAcceptSelectors : List AcceptSelector :=
  [AcceptSelector.btnText "Confirm My Choices",
   AcceptSelector.btnTextVisible "Accept All",
   AcceptSelector.btnText "Reject All",
   AcceptSelector.attrSel "data-testid=accept-cookies",
   AcceptSelector.attrSel "id=onetrust-accept-btn-handler",
   AcceptSelector.attrSel "button-id-contains-onetrust-accept",
   AcceptSelector.btnText "Accept All",
   AcceptSelector.btnText "Accept all",
   AcceptSelector.btnText "Accept All Cookies",
   AcceptSelector.btnText "Accept all cookies",
   AcceptSelector.btnText "Accepter tout",
   AcceptSelector.btnText "Tout accepter",
   AcceptSelector.btnText "Akzeptieren",
   AcceptSelector.btnText "Alle akzeptieren",
   AcceptSelector.btnText "Aceptar todo",
   AcceptSelector.btnText "Accetta tutto",
   AcceptSelector.btnText "I Accept",
   AcceptSelector.btnText "I Agree",
   AcceptSelector.btnText "Agree",
   AcceptSelector.attrSel "id=CybotCookiebotDialogBodyLevelButtonLevelOptinAllowAll",
   AcceptSelector.attrSel "id=CybotCookiebotDialogBodyButtonAccept",
   AcceptSelector.attrSel "a-id=CybotCookiebotDialogBodyLevelButtonLevelOptinAllowAll",
   AcceptSelector.attrSel "class=trustarc-agree-btn",
   AcceptSelector.attrSel "id=truste-consent-button",
   AcceptSelector.attrSel "call-data-testid=uc-accept-all-button",
   AcceptSelector.attrSel "qc-cmp2-summary-buttons-button-mode-primary",
   AcceptSelector.attrSel "button-class=css-47sehv",
   AcceptSelector.attrSel "id=didomi-notice-agree-button",
   AcceptSelector.attrSel "class=didomi-continue-without-agreeing",
   AcceptSelector.attrSel "class=cookielaw-accept",
   AcceptSelector.attrSel "id=cookiescript_accept",
   AcceptSelector.containerBtnText "cookie" "Accept",
   AcceptSelector.containerBtnText "consent" "Accept",
   AcceptSelector.linkText "Accept All",
   AcceptSelector.linkText "Accept all cookies"]

/-- locator(selector).first against the page: the first element (in DOM
order) matching the selector. -/
def firstMatch (pg : List ConsentButton) (sel : AcceptSelector) :
    Option ConsentButton :=
  pg.find? (fun b => matchesSelector b sel)

/-- Selector loop of accept_cookies: for each selector in order, if it has
a match whose first element is visible, that element is clicked and the
loop returns; an invisible first match (or no match) falls through to the
next selector. -/
def acceptChainClick (pg : List ConsentButton) :
    List AcceptSelector → Option ConsentButton
  | [] => none
  | sel :: rest =>
    match firstMatch pg sel with
    | some b => if b.visible then some b else acceptChainClick pg rest
    | none => acceptChainClick pg rest

/-- Accept phrases of the DOM-script fallback (acceptTexts). -/
def jsAcceptTexts : List String :=
  ["accept all", "accept all cookies", "accepter tout", "tout accepter",
   "i accept", "i agree", "allow all", "confirm my choices"]

/-- Deny phrases of the DOM-script fallback (avoidTexts). -/
def jsAvoidTexts : List String :=
  ["cookie notice", "cookie policy", "privacy policy", "learn more",
   "read more", "manage", "settings", "customize", "preferences"]

/-- DOM-script fallback of accept_cookies: iterate the button-like
elements in DOM order; lowercase and trim the text; skip any whose text
contains a deny phrase; click the first visible one whose text contains an
accept phrase. -/
def jsFallbackClick : List ConsentButton → Option ConsentButton
  | [] => none
  | b :: rest =>
    if !b.jsButtonLike then jsFallbackClick rest
    else
      let t := strTrim (strLower b.text)
      if jsAvoidTexts.any (fun p => strContains t p) then jsFallbackClick rest
      else if b.visible && jsAcceptTexts.any (fun p => strContains t p) then
        some b
      else jsFallbackClick rest

/-- CookieHandler.accept_cookies: the selector chain first, then the
DOM-script fallback; the result is the element clicked (none when the
method returns False). -/
def accept_cookies (pg : List ConsentButton) : Option ConsentButton :=
  match acceptChainClick pg cookieAcceptSelectors with
  | some b => some b
  | none => jsFallbackClick pg

/-- Visible button carrying both a deny-listed phrase and a chain accept
phrase in its text. -/
def denyListedAcceptButton : ConsentButton :=
  { text := "Manage Preferences and Accept All", visible := true,
    isButtonTag := true, isAnchorTag := false, jsButtonLike := true,
    containerClasses := [], attrMarkers := [] }

/-- C8 counterexample: the selector chain has no deny-list, so
accept_cookies clicks a button whose text matches the deny-listed phrases
manage and preferences, because it also matches the chain selector
button:has-text(Accept All). -/
theorem accept_cookies_clicks_deny_listed :
    accept_cookies [denyListedAcceptButton] = some denyListedAcceptButton ∧
    jsAvoidTexts.any
      (fun p =>
        strContains (strTrim (strLower denyListedAcceptButton.text)) p)
      = true ∧
    strContainsCI denyListedAcceptButton.text "accept" = true := by
  refine ⟨?_, by decide, by decide⟩
  decide

theorem jsFallbackClick_spec (pg : List ConsentButton) (b : ConsentButton)
    (h : jsFallbackClick pg = some b) :
    b.visible = true ∧ b.jsButtonLike = true ∧
    (∀ p ∈ jsAvoidTexts,
      strContains (strTrim (strLower b.text)) p = false) ∧
    (∃ p ∈ jsAcceptTexts,
      strContains (strTrim (strLower b.text)) p = true) := by
  induction pg with
  | nil => cases h
  | cons x rest ih =>
    by_cases hjs : x.jsButtonLike = true
    · by_cases havoid : (jsAvoidTexts.any
          (fun p => strContains (strTrim (strLower x.text)) p)) = true
      · rw [jsFallbackClick] at h
        simp only [hjs, havoid] at h
        exact ih (by simpa using h)
      · by_cases hacc : (x.visible && jsAcceptTexts.any
            (fun p => strContains (strTrim (strLower x.text)) p)) = true
        · rw [jsFallbackClick] at h
          simp only [hjs, havoid, hacc] at h
          simp only [Bool.not_true, Bool.false_eq_true, if_false,
            Bool.not_eq_true] at h
          have hb : x = b := by
            by_contra hne
            simp [havoid, hacc, hne] at h
          subst hb
          rcases (Bool.and_eq_true _ _).mp hacc with ⟨hv, hany⟩
          refine ⟨hv, hjs, ?_, ?_⟩
          · intro p hp
            by_contra hc
            have : jsAvoidTexts.any
                (fun q => strContains (strTrim (strLower x.text)) q)
                = true := by
              apply List.any_eq_true.mpr
              exact ⟨p, hp, by simpa using hc⟩
            exact havoid this
          · rcases List.any_eq_true.mp hany with ⟨p, hp, hc⟩
            exact ⟨p, hp, hc⟩
        · rw [jsFallbackClick] at h
          simp only [hjs, havoid, hacc] at h
          exact ih (by simpa [havoid, hacc] using h)
    · rw [jsFallbackClick] at h
      have hjs2 : x.jsButtonLike = false := by simpa using hjs
      simp only [hjs2] at h
      exact ih (by simpa using h)

/-- C8 amended: only the DOM-script fallback enforces the deny-list. When
the selector chain matched nothing (so the fallback decides), any button
accept_cookies clicks is visible, matches an accept phrase and contains no
deny-listed phrase; the selector chain itself, which runs first, clicks
the first visible element matching its selectors regardless of deny
phrases. -/
theorem accept_cookies_fallback_deny_safe (pg : List ConsentButton)
    (b : ConsentButton)
    (hchain : acceptChainClick pg cookieAcceptSelectors = none)
    (h : accept_cookies pg = some b) :
    b.visible = true ∧
    (∀ p ∈ jsAvoidTexts,
      strContains (strTrim (strLower b.text)) p = false) ∧
    (∃ p ∈ jsAcceptTexts,
      strContains (strTrim (strLower b.text)) p = true) := by
  rw [accept_cookies, hchain] at h
  have := jsFallbackClick_spec pg b h
  exact ⟨this.1, this.2.2.1, this.2.2.2⟩

/-- Non-button element (role=button) with an accept phrase no chain
selector carries. -/
def allowAllRoleButton : ConsentButton :=
  { text := "Allow all", visible := true, isButtonTag := false,
    isAnchorTag := false, jsButtonLike := true, containerClasses := [],
    attrMarkers := [] }

theorem accept_cookies_fallback_deny_safe_witness :
    allowAllRoleButton.visible = true ∧
    (∀ p ∈ jsAvoidTexts,
      strContains (strTrim (strLower allowAllRoleButton.text)) p = false) ∧
    (∃ p ∈ jsAcceptTexts,
      strContains (strTrim (strLower allowAllRoleButton.text)) p = true) :=
  accept_cookies_fallback_deny_safe [allowAllRoleButton] allowAllRoleButton
    (by decide) (by decide)

/-! ## Solver fault recovery (C9). Every solver body is written in the
Except monad over a page-operation oracle whose primitives may raise the
faults of the error taxonomy; each solver wraps its body in the same
try/except the source has, returning False on any fault. -/

/-- Fault taxonomy of the spec: a locator/element fault, an action timeout,
or a script-evaluation failure. -/
inductive Fault
  | elementNotFound
  | actionTimeout
  | scriptEvalFailure
deriving Repr, DecidableEq

/-- Page primitives the solvers call, each fallible. countQ is
locator(sel).count(); isVisibleQ is locator(sel).first.is_visible();
boundingBoxQ is locator(sel).first.bounding_box(); clickQ is
locator(sel).click(); frameCountQ / frameClickQ act inside
frame_locator(f); evalBoxQ is page.evaluate of a geometry-probe script
returning a box or null; the mouse primitives are page.mouse calls;
waitLoadQ is page.wait_for_load_state. -/
structure PageOps where
  countQ : String → Except Fault Nat
  isVisibleQ : String → Except Fault Bool
  boundingBoxQ : String → Except Fault (Option BoundingBox)
  clickQ : String → Except Fault Unit
  frameCountQ : String → String → Except Fault Nat
  frameClickQ : String → String → Except Fault Unit
  evalBoxQ : String → Except Fault (Option BoundingBox)
  mouseMoveQ : ℚ → ℚ → Except Fault Unit
  mouseDownQ : Except Fault Unit
  mouseUpQ : Except Fault Unit
  mouseClickQ : ℚ → ℚ → Except Fault Unit
  waitLoadQ : Except Fault Unit

/-- Selector strings used by the solvers (attribute quoting elided). -/
def selRecaptchaIframe : String := "iframe[src*=recaptcha]"

/-- Inner reCAPTCHA anchor selector. -/
def selRecaptchaAnchor : String := "#recaptcha-anchor"

/-- generic_robot_checkbox selector group. -/
def selGenericRobotCheckbox : String :=
  "input[type=checkbox][name-or-id-contains-robot-or-human]"

/-- Bare checkbox fallback of solve_checkbox. -/
def selInputCheckbox : String := "input[type=checkbox]"

/-- press_hold_button selector group. -/
def selPressHoldButton : String :=
  "[class*=press], [class*=hold], button[class*=verify]"

/-- slider_track selector group. -/
def selSliderTrack : String :=
  "[class*=slider], [class*=captcha-slider], [class*=drag]"

/-- slider_handle selector group. -/
def selSliderHandle : String :=
  "[class*=slider-handle], [class*=slider-button], [class*=drag-handle]"

/-- Slide-to-complete text marker. -/
def selSlideComplete : String := "text=Slide to complete"

/-- human_verify_checkbox selector group. -/
def selHumanVerifyCheckbox : String :=
  "[class*=captcha-or-verify-or-challenge] input[type=checkbox]"

/-- cloudflare_turnstile id selector. -/
def selCfTurnstileId : String := "#cf-turnstile"

/-- cloudflare_checkbox iframe selector. -/
def selCfCheckboxIframe : String := "iframe[src*=challenges.cloudflare]"

/-- Turnstile-specific challenge iframe (strategy 1). -/
def selCfTurnstileSrcIframe : String :=
  "iframe[src*=challenges.cloudflare.com][src*=turnstile]"

/-- Widget-id challenge iframe (strategy 2). -/
def selCfChlWidgetIframe : String := "iframe[id^=cf-chl-widget]"

/-- Any challenge-host iframe (strategy 3). -/
def selCfComIframe : String := "iframe[src*=challenges.cloudflare.com]"

/-- Verify-you-are-human text locator. -/
def selVerifyHumanText : String := "text=Verify you are human"

/-- Hidden Turnstile response input (strategy 5). -/
def selHiddenResponseInput : String :=
  "input[name=cf-turnstile-response], input[id*=cf-chl-widget][id*=_response]"

/-- Legacy label checkbox (strategy 7). -/
def selLabelCbCheckbox : String := "label.cb-lb input[type=checkbox]"

/-- Geometry-probe script of turnstile strategy 4 (identified by key). -/
def scriptTurnstileGeometry : String := "script:turnstile-geometry-probe"

/-- Parent-walk script of turnstile strategy 5. -/
def scriptResponseParent : String := "script:response-input-parent"

/-- Draggable-probe script of the puzzle solver fallback. -/
def scriptPuzzleHandle : String := "script:puzzle-handle-probe"

/-- Handle selector chain of solve_puzzle_slider. -/
def puzzleHandleSelectors : List String :=
  ["[class*=slider] [class*=btn]", "[class*=slider] [class*=arrow]",
   "[class*=slider] button", "[class*=verify] [class*=btn]",
   "[class*=captcha] [class*=slider]", "div[class*=drag]"]

/-- Label texts of turnstile strategy 8. -/
def cfLabelTexts : List String :=
  ["Verify you are human", "Vérifiez que vous êtes humain", "I am human"]

/-- Random samples a solver consumes: waypoint jitter, drag wobble and the
click-point offsets from random.randint. -/
structure SolverRng where
  jx : Nat → ℚ
  jy : Nat → ℚ
  wobble : Nat → ℚ
  offX : ℚ
  offY : ℚ

/-- _wait_for_state_change: wait_for_load_state inside its own try/except,
so it never raises. -/
def tryWait (p : PageOps) : Except Fault Unit :=
  match p.waitLoadQ with
  | Except.ok _ => Except.ok ()
  | Except.error _ => Except.ok ()

/-- _smooth_mouse_move as a sequence of fallible pointer moves. -/
def smoothMouseMoveE (p : PageOps) (rng : SolverRng) (cx cy tx ty : ℚ) :
    Except Fault Unit :=
  (smoothMouseMovePath cx cy tx ty rng.jx rng.jy).forM
    (fun wp => p.mouseMoveQ wp.1 wp.2)

/-- _human_move_and_click: center of the box plus randint offsets, smooth
move, click. -/
def humanMoveAndClickE (p : PageOps) (rng : SolverRng) (cx cy : ℚ)
    (box : BoundingBox) : Except Fault Unit := do
  let x := box.x + box.width / 2 + rng.offX
  let y := box.y + box.height / 2 + rng.offY
  smoothMouseMoveE p rng cx cy x y
  p.mouseClickQ x y

/-- _human_drag as fallible primitives (same move/down/moves/up structure
as human_drag above). -/
def humanDragE (p : PageOps) (rng : SolverRng) (cx cy sx sy ex : ℚ) :
    Except Fault Unit := do
  smoothMouseMoveE p rng cx cy sx sy
  p.mouseDownQ
  let steps := max 20 (pyTrunc ((ex - sx) / 10)).toNat
  (List.range steps).forM
    (fun i => p.mouseMoveQ
      (sx + (ex - sx) * (((i : ℚ) + 1) / (steps : ℚ)))
      (sy + rng.wobble i))
  p.mouseUpQ

/-- _click_turnstile_checkbox: click biased to the left quarter of the
widget box. -/
def clickTurnstileE (p : PageOps) (rng : SolverRng) (cx cy : ℚ)
    (box : BoundingBox) : Except Fault Bool := do
  let clickX := box.x + min 35 (box.width / 4)
  let clickY := box.y + box.height / 2
  smoothMouseMoveE p rng cx cy clickX clickY
  p.mouseClickQ clickX clickY
  pure true

/-- Python try/except Exception around a solver body: a fault yields False. -/
def pyTry (x : Except Fault Bool) : Bool :=
  match x with
  | Except.ok b => b
  | Except.error _ => false

/-- Selector loop of solve_checkbox. -/
def solveCheckboxLoopE (p : PageOps) (rng : SolverRng) (cx cy : ℚ) :
    List String → Except Fault Bool
  | [] => pure false
  | sel :: rest => do
    let c ← p.countQ sel
    if c > 0 then do
      let box? ← p.boundingBoxQ sel
      match box? with
      | some box => do
        humanMoveAndClickE p rng cx cy box
        tryWait p
        pure true
      | none => solveCheckboxLoopE p rng cx cy rest
    else solveCheckboxLoopE p rng cx cy rest

/-- Body of AntibotHandler.solve_checkbox. -/
def solveCheckboxBodyE (p : PageOps) (rng : SolverRng) (cx cy : ℚ)
    (selector : Option String) : Except Fault Bool :=
  solveCheckboxLoopE p rng cx cy
    (match selector with
     | some s => [s]
     | none => [selGenericRobotCheckbox, selInputCheckbox])

/-- AntibotHandler.solve_checkbox. -/
def solve_checkbox (p : PageOps) (rng : SolverRng) (cx cy : ℚ)
    (selector : Option String) : Bool :=
  pyTry (solveCheckboxBodyE p rng cx cy selector)

/-- Body of AntibotHandler.solve_recaptcha_checkbox. -/
def solveRecaptchaBodyE (p : PageOps) : Except Fault Bool := do
  let c ← p.frameCountQ selRecaptchaIframe selRecaptchaAnchor
  if c > 0 then do
    p.frameClickQ selRecaptchaIframe selRecaptchaAnchor
    tryWait p
    pure true
  else pure false

/-- AntibotHandler.solve_recaptcha_checkbox. -/
def solve_recaptcha_checkbox (p : PageOps) : Bool :=
  pyTry (solveRecaptchaBodyE p)

/-- Body of AntibotHandler.solve_press_and_hold. -/
def solvePressAndHoldBodyE (p : PageOps) (rng : SolverRng) (cx cy : ℚ)
    (selector : Option String) (holdDuration : Option ℚ)
    (uniformSample : ℚ) : Except Fault Bool := do
  let sel := selector.getD selPressHoldButton
  let c ← p.countQ sel
  if c > 0 then do
    let box? ← p.boundingBoxQ sel
    match box? with
    | some box => do
      let x := box.x + box.width / 2 + rng.offX
      let y := box.y + box.height / 2 + rng.offY
      smoothMouseMoveE p rng cx cy x y
      let _duration := pyOrFloat holdDuration uniformSample
      p.mouseDownQ
      p.mouseUpQ
      tryWait p
      pure true
    | none => pure false
  else pure false

/-- AntibotHandler.solve_press_and_hold. -/
def solve_press_and_hold (p : PageOps) (rng : SolverRng) (cx cy : ℚ)
    (selector : Option String) (holdDuration : Option ℚ)
    (uniformSample : ℚ) : Bool :=
  pyTry (solvePressAndHoldBodyE p rng cx cy selector holdDuration
    uniformSample)

/-- Body of AntibotHandler.solve_slider. -/
def solveSliderBodyE (p : PageOps) (rng : SolverRng) (cx cy : ℚ)
    (trackSelector handleSelector : Option String) : Except Fault Bool := do
  let trackSel := trackSelector.getD selSliderTrack
  let handleSel := handleSelector.getD selSliderHandle
  let tc ← p.countQ trackSel
  let trackBox? ← if tc > 0 then p.boundingBoxQ trackSel else pure none
  let hc ← p.countQ handleSel
  let handleBox? ← if hc > 0 then p.boundingBoxQ handleSel else pure none
  match trackBox?, handleBox? with
  | some tb, some hb => do
    humanDragE p rng cx cy (hb.x + hb.width / 2) (hb.y + hb.height / 2)
      (tb.x + tb.width - 10)
    tryWait p
    pure true
  | _, _ => pure false

/-- AntibotHandler.solve_slider. -/
def solve_slider (p : PageOps) (rng : SolverRng) (cx cy : ℚ)
    (trackSelector handleSelector : Option String) : Bool :=
  pyTry (solveSliderBodyE p rng cx cy trackSelector handleSelector)

/-- Handle-search loop of solve_puzzle_slider: first selector with a match
whose first element is visible. -/
def findPuzzleHandleE (p : PageOps) :
    List String → Except Fault (Option String)
  | [] => pure none
  | sel :: rest => do
    let c ← p.countQ sel
    if c > 0 then do
      let v ← p.isVisibleQ sel
      if v then pure (some sel) else findPuzzleHandleE p rest
    else findPuzzleHandleE p rest

/-- Offset loop of solve_puzzle_slider with fallible drag and marker
re-check. -/
def puzzleDragLoopE (p : PageOps) (rng : SolverRng) (cx cy sx sy : ℚ) :
    List ℚ → Except Fault Bool
  | [] => pure true
  | off :: rest => do
    humanDragE p rng cx cy sx sy (sx + trackWidthApprox * off)
    let c ← p.countQ selSlideComplete
    if c = 0 then pure true
    else puzzleDragLoopE p rng cx cy sx sy rest

/-- Body of AntibotHandler.solve_puzzle_slider. -/
def solvePuzzleSliderBodyE (p : PageOps) (rng : SolverRng) (cx cy : ℚ) :
    Except Fault Bool := do
  let hasPuzzle ← p.countQ selSlideComplete
  if hasPuzzle > 0 then do
    let handle? ← findPuzzleHandleE p puzzleHandleSelectors
    match handle? with
    | some sel => do
      let box? ← p.boundingBoxQ sel
      match box? with
      | some box =>
        puzzleDragLoopE p rng cx cy (box.x + box.width / 2)
          (box.y + box.height / 2) offsetAttempts
      | none => pure false
    | none => do
      let jsBox? ← p.evalBoxQ scriptPuzzleHandle
      match jsBox? with
      | some box =>
        puzzleDragLoopE p rng cx cy (box.x + box.width / 2)
          (box.y + box.height / 2) offsetAttempts
      | none => pure false
  else pure false

/-- AntibotHandler.solve_puzzle_slider against the fallible page model. -/
def solve_puzzle_slider_page (p : PageOps) (rng : SolverRng) (cx cy : ℚ) :
    Bool :=
  pyTry (solvePuzzleSliderBodyE p rng cx cy)

/-- Strategies 1 to 3 of the turnstile solver: iframe selector, bounding
box, left-quarter click; no match or no box falls through (none). -/
def strategyIframeBox (p : PageOps) (rng : SolverRng) (cx cy : ℚ)
    (sel : String) : Except Fault (Option Bool) := do
  let c ← p.countQ sel
  if c > 0 then do
    let b? ← p.boundingBoxQ sel
    match b? with
    | some b => do
      let r ← clickTurnstileE p rng cx cy b
      pure (some r)
    | none => pure none
  else pure none

/-- Strategy 8 loop of the turnstile solver. -/
def labelTextLoopE (p : PageOps) : List String → Except Fault Bool
  | [] => pure false
  | t :: rest => do
    let c ← p.countQ ("label:has-text(" ++ t ++ ") input[type=checkbox]")
    if c > 0 then do
      p.clickQ ("label:has-text(" ++ t ++ ") input[type=checkbox]")
      pure true
    else labelTextLoopE p rest

/-- Strategies 7 and 8 of the turnstile solver. -/
def cfStrategy78E (p : PageOps) : Except Fault Bool := do
  let c7 ← p.countQ selLabelCbCheckbox
  if c7 > 0 then do
    p.clickQ selLabelCbCheckbox
    pure true
  else labelTextLoopE p cfLabelTexts

/-- Body of AntibotHandler.solve_cloudflare_turnstile (structurally
identical to CloudflareHandler.solve_turnstile): the eight location
strategies in order. -/
def solveCloudflareTurnstileBodyE (p : PageOps) (rng : SolverRng)
    (cx cy : ℚ) : Except Fault Bool := do
  tryWait p
  let s1 ← strategyIframeBox p rng cx cy selCfTurnstileSrcIframe
  match s1 with
  | some r => pure r
  | none => do
    let s2 ← strategyIframeBox p rng cx cy selCfChlWidgetIframe
    match s2 with
    | some r => pure r
    | none => do
      let s3 ← strategyIframeBox p rng cx cy selCfComIframe
      match s3 with
      | some r => pure r
      | none => do
        let g? ← p.evalBoxQ scriptTurnstileGeometry
        match g? with
        | some b => clickTurnstileE p rng cx cy b
        | none => do
          let hc ← p.countQ selHiddenResponseInput
          let par? ← if hc > 0 then p.evalBoxQ scriptResponseParent
            else pure none
          match par? with
          | some b => clickTurnstileE p rng cx cy b
          | none => do
            let vc ← p.countQ selVerifyHumanText
            if vc > 0 then do
              let tb? ← p.boundingBoxQ selVerifyHumanText
              match tb? with
              | some tb =>
                clickTurnstileE p rng cx cy
                  ⟨tb.x, tb.y + tb.height + 20, 300, 65⟩
              | none => cfStrategy78E p
            else cfStrategy78E p

/-- AntibotHandler.solve_cloudflare_turnstile (and
CloudflareHandler.solve_turnstile). -/
def solve_cloudflare_turnstile (p : PageOps) (rng : SolverRng)
    (cx cy : ℚ) : Bool :=
  pyTry (solveCloudflareTurnstileBodyE p rng cx cy)

/-- Generic-robot-checkbox block of solve_human_verify. -/
def humanVerifyRobotPartE (p : PageOps) (rng : SolverRng) (cx cy : ℚ) :
    Except Fault Bool := do
  let v ← p.isVisibleQ selGenericRobotCheckbox
  if v then do
    let b? ← p.boundingBoxQ selGenericRobotCheckbox
    match b? with
    | some b => do
      humanMoveAndClickE p rng cx cy b
      pure true
    | none => pure false
  else pure false

/-- Body of AntibotHandler.solve_human_verify: turnstile first (which
never raises), then the specific captcha checkbox, then the generic robot
checkbox. -/
def solveHumanVerifyBodyE (p : PageOps) (rng : SolverRng) (cx cy : ℚ) :
    Except Fault Bool := do
  if solve_cloudflare_turnstile p rng cx cy then pure true
  else do
    let v ← p.isVisibleQ selHumanVerifyCheckbox
    if v then do
      let b? ← p.boundingBoxQ selHumanVerifyCheckbox
      match b? with
      | some b => do
        humanMoveAndClickE p rng cx cy b
        pure true
      | none => humanVerifyRobotPartE p rng cx cy
    else humanVerifyRobotPartE p rng cx cy

/-- AntibotHandler.solve_human_verify. -/
def solve_human_verify (p : PageOps) (rng : SolverRng) (cx cy : ℚ) : Bool :=
  pyTry (solveHumanVerifyBodyE p rng cx cy)

/-- Iframe-click block of handle_cloudflare. -/
def handleCloudflareIframePartE (p : PageOps) : Except Fault Bool := do
  let c ← p.countQ selCfCheckboxIframe
  if c > 0 then do
    p.clickQ selCfCheckboxIframe
    pure true
  else pure false

/-- Body of AntibotHandler.handle_cloudflare: wait, turnstile solver
(never raises), turnstile id widget, challenge iframe. -/
def handleCloudflareBodyE (p : PageOps) (rng : SolverRng) (cx cy : ℚ) :
    Except Fault Bool := do
  tryWait p
  if solve_cloudflare_turnstile p rng cx cy then pure true
  else do
    let c ← p.countQ selCfTurnstileId
    if c > 0 then do
      let b? ← p.boundingBoxQ selCfTurnstileId
      match b? with
      | some b => do
        humanMoveAndClickE p rng cx cy b
        pure true
      | none => handleCloudflareIframePartE p
    else handleCloudflareIframePartE p

/-- AntibotHandler.handle_cloudflare. -/
def handle_cloudflare (p : PageOps) (rng : SolverRng) (cx cy : ℚ) : Bool :=
  pyTry (handleCloudflareBodyE p rng cx cy)

/-- C9: whenever a page primitive raises inside a solver body, the solver
call returns false instead of propagating the fault; this holds for every
solver (the try/except wraps the whole body, and the wait helper catches
its own exceptions). -/
theorem solvers_return_false_on_fault (p : PageOps) (rng : SolverRng)
    (cx cy : ℚ) (selector : Option String) (holdDuration : Option ℚ)
    (u : ℚ) (trackSelector handleSelector : Option String) (f : Fault) :
    (solveCheckboxBodyE p rng cx cy selector = Except.error f →
      solve_checkbox p rng cx cy selector = false) ∧
    (solveRecaptchaBodyE p = Except.error f →
      solve_recaptcha_checkbox p = false) ∧
    (solvePressAndHoldBodyE p rng cx cy selector holdDuration u
        = Except.error f →
      solve_press_and_hold p rng cx cy selector holdDuration u = false) ∧
    (solveSliderBodyE p rng cx cy trackSelector handleSelector
        = Except.error f →
      solve_slider p rng cx cy trackSelector handleSelector = false) ∧
    (solvePuzzleSliderBodyE p rng cx cy = Except.error f →
      solve_puzzle_slider_page p rng cx cy = false) ∧
    (solveCloudflareTurnstileBodyE p rng cx cy = Except.error f →
      solve_cloudflare_turnstile p rng cx cy = false) ∧
    (solveHumanVerifyBodyE p rng cx cy = Except.error f →
      solve_human_verify p rng cx cy = false) ∧
    (handleCloudflareBodyE p rng cx cy = Except.error f →
      handle_cloudflare p rng cx cy = false) := by
  refine ⟨?_, ?_, ?_, ?_, ?_, ?_, ?_, ?_⟩ <;> intro h
  · simp [solve_checkbox, pyTry, h]
  · simp [solve_recaptcha_checkbox, pyTry, h]
  · simp [solve_press_and_hold, pyTry, h]
  · simp [solve_slider, pyTry, h]
  · simp [solve_puzzle_slider_page, pyTry, h]
  · simp [solve_cloudflare_turnstile, pyTry, h]
  · simp [solve_human_verify, pyTry, h]
  · simp [handle_cloudflare, pyTry, h]

/-- Page whose every primitive raises. -/
def pAllFaulty : PageOps :=
  { countQ := fun _ => Except.error Fault.elementNotFound,
    isVisibleQ := fun _ => Except.error Fault.elementNotFound,
    boundingBoxQ := fun _ => Except.error Fault.elementNotFound,
    clickQ := fun _ => Except.error Fault.actionTimeout,
    frameCountQ := fun _ _ => Except.error Fault.elementNotFound,
    frameClickQ := fun _ _ => Except.error Fault.actionTimeout,
    evalBoxQ := fun _ => Except.error Fault.scriptEvalFailure,
    mouseMoveQ := fun _ _ => Except.error Fault.actionTimeout,
    mouseDownQ := Except.error Fault.actionTimeout,
    mouseUpQ := Except.error Fault.actionTimeout,
    mouseClickQ := fun _ _ => Except.error Fault.actionTimeout,
    waitLoadQ := Except.error Fault.actionTimeout }

/-- Zero random samples. -/
def rngZeroS : SolverRng := ⟨fun _ => 0, fun _ => 0, fun _ => 0, 0, 0⟩

theorem solvers_return_false_on_fault_witness :
    solve_checkbox pAllFaulty rngZeroS 0 0 none = false ∧
    solve_recaptcha_checkbox pAllFaulty = false ∧
    solve_press_and_hold pAllFaulty rngZeroS 0 0 none none 3 = false ∧
    solve_slider pAllFaulty rngZeroS 0 0 none none = false ∧
    solve_puzzle_slider_page pAllFaulty rngZeroS 0 0 = false ∧
    solve_cloudflare_turnstile pAllFaulty rngZeroS 0 0 = false ∧
    solve_human_verify pAllFaulty rngZeroS 0 0 = false ∧
    handle_cloudflare pAllFaulty rngZeroS 0 0 = false :=
  have hthm := solvers_return_false_on_fault pAllFaulty rngZeroS 0 0 none
    none 3 none none Fault.elementNotFound
  ⟨hthm.1 rfl, hthm.2.1 rfl, hthm.2.2.1 rfl, hthm.2.2.2.1 rfl,
   hthm.2.2.2.2.1 rfl, hthm.2.2.2.2.2.1 rfl, hthm.2.2.2.2.2.2.1 rfl,
   hthm.2.2.2.2.2.2.2 rfl⟩

end SP
